import Mathlib

/-!
Verification development for the Rover_2023_2024 status/control pipeline.

Two nodes are embedded shallowly:

* `Rover.Iris` models `software/ros_packages/rover2_control/rover2_control/iris_controller.py`:
  register reads over a half-duplex transport, drive/arm mode dispatch, the drive
  command mapping, the iris status broadcast and the hard-disconnect exit check.
  Python floats are modelled as rationals, registers as integers, and the
  per-tick try/except as an `Except` value that the tick consumes.

* `Rover.Status` models `software/ros_packages/rover2_status/rover2_status/system_statuses_node.py`:
  the per-category status records, the per-tick refresh of record values, the
  subscription callbacks, and the change-detection / rate-ceiling publish logic
  of `main_loop`.  Wall-clock `time()` is passed in as the tick's `now`;
  OS-provided inputs (camera device presence, psutil metrics) are an explicit
  `MetricsEnv` argument.
-/

namespace Rover.Iris

/-- SBUS calibration constants from the source's `SBUS_VALUES` table. -/
def SBUS_MAX : Int := 1811

/-- Midpoint of the SBUS range (`SBUS_VALUES["SBUS_MID"]`). -/
def SBUS_MID : Int := 991

/-- Minimum of the SBUS range (`SBUS_VALUES["SBUS_MIN"]`). -/
def SBUS_MIN : Int := 172

/-- Half-range used for normalization (`SBUS_VALUES["SBUS_RANGE"] = 820.0`). -/
def SBUS_RANGE : ℚ := 820

/-- Deadzone width (`SBUS_VALUES["SBUS_DEADZONE"]`). -/
def SBUS_DEADZONE : Int := 5

/-- Register index of the left stick Y axis (`MODBUS_REGISTERS`). -/
def LEFT_STICK_Y_AXIS : Nat := 0

/-- Register index of the right stick Y axis (`MODBUS_REGISTERS`). -/
def RIGHT_STICK_Y_AXIS : Nat := 1

/-- Register index of the SE switch (`MODBUS_REGISTERS["SE_SWITCH"]`). -/
def SE_SWITCH : Nat := 12

/-- Register index of the SF switch (`MODBUS_REGISTERS["SF_SWITCH"]`). -/
def SF_SWITCH : Nat := 13

/-- Register index of the 24V rail voltage (`MODBUS_REGISTERS["VOLTAGE_24V"]`). -/
def VOLTAGE_24V : Nat := 16

/-- `REGISTER_STATE_MAPPING["DRIVE_VS_ARM"] = "SE_SWITCH"`. -/
def DRIVE_VS_ARM : Nat := SE_SWITCH

/-- `REGISTER_STATE_MAPPING["IGNORE_CONTROL"] = "SF_SWITCH"`. -/
def IGNORE_CONTROL : Nat := SF_SWITCH

/-- `len(MODBUS_REGISTERS)`: the expected register count of a full snapshot. -/
def MODBUS_REGISTER_COUNT : Nat := 20

/-- Per-call serial timeout, `COMMUNICATIONS_TIMEOUT = 0.15` seconds. -/
def COMMUNICATIONS_TIMEOUT : ℚ := 15 / 100

/-- Hard-disconnect threshold, `IRIS_LAST_SEEN_TIMEOUT = 1` second. -/
def IRIS_LAST_SEEN_TIMEOUT : ℚ := 1

/-- The drive command published on `command_control/iris_drive`.
`drive_twist.linear.x` and `drive_twist.angular.z` are the only twist fields
the source writes, kept here as `linear_x` and `angular_z`. -/
structure DriveCommandMessage where
  controller_present : Bool
  ignore_drive_control : Bool
  linear_x : ℚ
  angular_z : ℚ
deriving DecidableEq

/-- The status message published on `iris_status`. -/
structure IrisStatusMessage where
  iris_connected : Bool
  voltage_24v : Int
deriving DecidableEq

/-- Mutable state of the `IrisController` node: the last raw register vector,
the `iris_connected` flag, and the time of the last successful read. -/
structure IrisState where
  registers : List Int
  iris_connected : Bool
  iris_last_seen_time : ℚ
deriving DecidableEq

/-- Failure raised by indexing `self.registers` outside its length; in Python
this is the `IndexError` that the tick's catch-all `except` swallows. -/
inductive RegisterError where
  | indexOutOfRange
deriving DecidableEq

/-- `self.registers[i]`, fallible exactly when `i` is out of range. -/
def getRegister (regs : List Int) (i : Nat) : Except RegisterError Int :=
  match regs[i]? with
  | some v => Except.ok v
  | none => Except.error RegisterError.indexOutOfRange

/-- `read_registers`: on a successful transport read the raw vector is stored
and `iris_last_seen_time` is set to now; on a transport exception the error is
swallowed, `iris_connected` is set to `False`, and nothing else changes.
The transport outcome is passed in as `readResult` (`none` = raised). -/
def read_registers (s : IrisState) (readResult : Option (List Int)) (now : ℚ) : IrisState :=
  match readResult with
  | some regs => { s with registers := regs, iris_last_seen_time := now }
  | none => { s with iris_connected := false }

/-- `broadcast_drive_if_current_mode`: publishes a drive command iff the
DRIVE_VS_ARM switch register is below `SBUS_MID`; inside drive mode the
`(0, 0)` stick pair is the no-controller sentinel, otherwise the sticks are
normalized and mixed.  Returns `some cmd` when a command is published. -/
def broadcast_drive_if_current_mode (regs : List Int) :
    Except RegisterError (Option DriveCommandMessage) := do
  let driveVsArm ← getRegister regs DRIVE_VS_ARM
  if driveVsArm < SBUS_MID then
    let left_y_axis ← getRegister regs LEFT_STICK_Y_AXIS
    let right_y_axis ← getRegister regs RIGHT_STICK_Y_AXIS
    if left_y_axis = 0 ∧ right_y_axis = 0 then
      return some { controller_present := false, ignore_drive_control := true,
                    linear_x := 0, angular_z := 0 }
    else
      let left : ℚ := ((left_y_axis - SBUS_MID : Int) : ℚ) / SBUS_RANGE
      let right : ℚ := ((right_y_axis - SBUS_MID : Int) : ℚ) / SBUS_RANGE
      let ignoreReg ← getRegister regs IGNORE_CONTROL
      return some { controller_present := true,
                    ignore_drive_control := decide (ignoreReg > SBUS_MID),
                    linear_x := (left + right) / 2,
                    angular_z := (right - left) / 2 }
  else
    return none

/-- `broadcast_arm_if_current_mode`: the arm branch fires (the source prints
"Arm" and does nothing else) iff the DRIVE_VS_ARM register is above
`SBUS_MIN + SBUS_DEADZONE`.  Returns whether the branch fired. -/
def broadcast_arm_if_current_mode (regs : List Int) : Except RegisterError Bool := do
  let driveVsArm ← getRegister regs DRIVE_VS_ARM
  return decide (driveVsArm > SBUS_MIN + SBUS_DEADZONE)

/-- `broadcast_iris_status`: always publishes `iris_connected = True` and the
raw 24V register value. -/
def broadcast_iris_status (regs : List Int) : Except RegisterError IrisStatusMessage := do
  let v ← getRegister regs VOLTAGE_24V
  return { iris_connected := true, voltage_24v := v }

/-- The guard of the drive branch of `broadcast_drive_if_current_mode`:
`self.registers[SE_SWITCH] < SBUS_MID` (false as well when the access fails). -/
def drive_branch_fires (regs : List Int) : Bool :=
  match getRegister regs DRIVE_VS_ARM with
  | Except.ok v => decide (v < SBUS_MID)
  | Except.error _ => false

/-- The guard of the arm branch of `broadcast_arm_if_current_mode`:
`self.registers[SE_SWITCH] > SBUS_MIN + SBUS_DEADZONE`. -/
def arm_branch_fires (regs : List Int) : Bool :=
  match getRegister regs DRIVE_VS_ARM with
  | Except.ok v => decide (v > SBUS_MIN + SBUS_DEADZONE)
  | Except.error _ => false

/-- Observable outcome of one `main_loop` tick of the iris controller. -/
structure IrisTickOutput where
  drive : Option DriveCommandMessage
  arm_printed : Bool
  status : Option IrisStatusMessage
  error_logged : Bool
  exited : Bool
deriving DecidableEq

/-- `main_loop` of `IrisController`: read registers (its own failure is
swallowed inside `read_registers`), then run the three broadcast steps under
the tick's try/except — a raised `RegisterError` aborts the remaining steps of
the tick, logs, and keeps anything already published; finally the
hard-disconnect timeout check decides whether the node exits. -/
def main_loop (s0 : IrisState) (readResult : Option (List Int)) (now : ℚ) :
    IrisState × IrisTickOutput :=
  let s := read_registers s0 readResult now
  let exited := decide (now - s.iris_last_seen_time > IRIS_LAST_SEEN_TIMEOUT)
  match broadcast_drive_if_current_mode s.registers with
  | Except.error _ =>
      (s, { drive := none, arm_printed := false, status := none,
            error_logged := true, exited := exited })
  | Except.ok drive =>
      match broadcast_arm_if_current_mode s.registers with
      | Except.error _ =>
          (s, { drive := drive, arm_printed := false, status := none,
                error_logged := true, exited := exited })
      | Except.ok armPrinted =>
          match broadcast_iris_status s.registers with
          | Except.error _ =>
              (s, { drive := drive, arm_printed := armPrinted, status := none,
                    error_logged := true, exited := exited })
          | Except.ok st =>
              (s, { drive := drive, arm_printed := armPrinted, status := some st,
                    error_logged := false, exited := exited })

/-- Node state right after `__init__`: `self.registers = []`,
`self.iris_connected = False`, startup instant taken as time 0. -/
def irisInitState : IrisState :=
  { registers := [], iris_connected := false, iris_last_seen_time := 0 }

end Rover.Iris

namespace Rover.Status

/-- `MAX_JETSON_UPDATE_HERTZ = 0.2`. -/
def MAX_JETSON_UPDATE_HERTZ : ℚ := 1 / 5

/-- `MAX_IRIS_UPDATE_HERTZ = 0.2` (rate ceiling of the battery topic). -/
def MAX_IRIS_UPDATE_HERTZ : ℚ := 1 / 5

/-- Battery record published on `battery_status`. -/
structure BatteryStatusMessage where
  battery_voltage : Int
deriving DecidableEq

/-- Camera-presence record published on `camera_status`. -/
structure CameraStatuses where
  camera_zed : Bool
  camera_undercarriage : Bool
  camera_chassis : Bool
  camera_main_navigation : Bool
deriving DecidableEq

/-- Per-axle wheel connectivity record published on `wheel_status`. -/
structure WheelStatuses where
  front_left : Bool
  middle_left : Bool
  rear_left : Bool
  front_right : Bool
  middle_right : Bool
  rear_right : Bool
deriving DecidableEq

/-- Controller-link record published on `frsky_status`. -/
structure FrSkyStatus where
  frsky_controller_connection_status : Bool
deriving DecidableEq

/-- GPS record published on `gps_status`. -/
structure GPSInfo where
  gps_connected : Bool
  gps_fix : Bool
  num_satellites : Int
  horizontal_dilution : ℚ
  kmph : ℚ
  gps_heading : ℚ
deriving DecidableEq

/-- Jetson metrics record published on `jetson_status`. -/
structure JetsonInfo where
  jetson_cpu : ℚ
  jetson_ram : ℚ
  jetson_emmc : ℚ
  jetson_nvme_ssd : ℚ
  jetson_gpu_temp : ℚ
deriving DecidableEq

/-- Misc subsystem record published on `misc_status`. -/
structure MiscStatuses where
  arm_connection_status : Bool
  arm_end_effector_connection_statuses : Bool
  chassis_pan_tilt_connection_status : Bool
  sample_containment_connection_status : Bool
  tower_connection_status : Bool
deriving DecidableEq

/-- OS-provided inputs read during a refresh: `os.path.exists` for the four
camera device paths and the psutil / statvfs / sensors metrics. -/
structure MetricsEnv where
  camera_zed : Bool
  camera_undercarriage : Bool
  camera_chassis : Bool
  camera_main_navigation : Bool
  jetson_cpu : ℚ
  jetson_ram : ℚ
  jetson_emmc : ℚ
  jetson_nvme_ssd : ℚ
  jetson_gpu_temp : ℚ
deriving DecidableEq

/-- Instance state of the `SystemStatuses` node: the seven status records,
the ad-hoc per-field previous-value snapshots, the manual-update flag, the two
rate-ceiling timestamps, and a count of the subscriptions created so far on
`/rover_control/command_control/iris_drive` (the resource that
`__set_frsky_controller_connection_status` acquires on every call). -/
structure SystemStatuses where
  battery_message : BatteryStatusMessage
  camera_msg : CameraStatuses
  wheel_msg : WheelStatuses
  FrSky_msg : FrSkyStatus
  GPS_msg : GPSInfo
  jetson_msg : JetsonInfo
  misc_msg : MiscStatuses
  previous_battery_voltage : Int
  previous_camera_zed : Bool
  previous_camera_undercarriage : Bool
  previous_camera_chassis : Bool
  previous_camera_main_navigation : Bool
  previous_jetson_cpu : ℚ
  previous_jetson_ram : ℚ
  previous_jetson_emmc : ℚ
  previous_jetson_nvme_ssd : ℚ
  previous_jetson_gpu_temp : ℚ
  previous_frsky_controller_connection_status : Bool
  previous_wheel_front_left : Bool
  previous_wheel_middle_left : Bool
  previous_wheel_rear_left : Bool
  previous_wheel_front_right : Bool
  previous_wheel_middle_right : Bool
  previous_wheel_rear_right : Bool
  previous_gps_connected : Bool
  previous_gps_fix : Bool
  previous_gps_num_satellites : Int
  previous_gps_horizontal_dilution : ℚ
  previous_gps_kmph : ℚ
  previous_gps_heading : ℚ
  previous_arm_connection_status : Bool
  previous_arm_end_effector_connection_statuses : Bool
  previous_chassis_pan_tilt_connection_status : Bool
  previous_sample_containment_connection_status : Bool
  previous_tower_connection_status : Bool
  manual_update_requested : Bool
  last_jetson_message_sent : ℚ
  last_iris_message_sent : ℚ
  iris_drive_subscription_count : Nat
deriving DecidableEq

/-- `__set_arm_connection_status` (WIP): always writes `False`. -/
def set_arm_connection_status (s : SystemStatuses) : SystemStatuses :=
  { s with misc_msg := { s.misc_msg with arm_connection_status := false } }

/-- `__set_arm_end_effector_connection_statuses` (WIP): always writes `False`. -/
def set_arm_end_effector_connection_statuses (s : SystemStatuses) : SystemStatuses :=
  { s with misc_msg := { s.misc_msg with arm_end_effector_connection_statuses := false } }

/-- `__set_cameras`: copies the four `os.path.exists` results into the record. -/
def set_cameras (s : SystemStatuses) (e : MetricsEnv) : SystemStatuses :=
  { s with camera_msg :=
      { camera_zed := e.camera_zed
        camera_undercarriage := e.camera_undercarriage
        camera_chassis := e.camera_chassis
        camera_main_navigation := e.camera_main_navigation } }

/-- `__set_sample_containment_connection_status` (WIP): always writes `False`. -/
def set_sample_containment_connection_status (s : SystemStatuses) : SystemStatuses :=
  { s with misc_msg := { s.misc_msg with sample_containment_connection_status := false } }

/-- `__set_tower_connection_status` (WIP): always writes `False`. -/
def set_tower_connection_status (s : SystemStatuses) : SystemStatuses :=
  { s with misc_msg := { s.misc_msg with tower_connection_status := false } }

/-- `__set_chassis_pan_tilt_connection_status` (WIP): always writes `False`. -/
def set_chassis_pan_tilt_connection_status (s : SystemStatuses) : SystemStatuses :=
  { s with misc_msg := { s.misc_msg with chassis_pan_tilt_connection_status := false } }

/-- `__set_jetson_usage_information`: copies the psutil / statvfs / sensors
metrics into the Jetson record (gpu temp is `-1.0` inside `e` when the sensors
call failed). -/
def set_jetson_usage_information (s : SystemStatuses) (e : MetricsEnv) : SystemStatuses :=
  { s with jetson_msg :=
      { jetson_cpu := e.jetson_cpu
        jetson_ram := e.jetson_ram
        jetson_emmc := e.jetson_emmc
        jetson_nvme_ssd := e.jetson_nvme_ssd
        jetson_gpu_temp := e.jetson_gpu_temp } }

/-- `__set_frsky_controller_connection_status` (WIP): its body is a
`create_subscription` call on `/rover_control/command_control/iris_drive`, so
every call acquires one more subscription and touches no record. -/
def set_frsky_controller_connection_status (s : SystemStatuses) : SystemStatuses :=
  { s with iris_drive_subscription_count := s.iris_drive_subscription_count + 1 }

/-- `__pull_new_message_values`: the per-tick refresh, in source order. -/
def pull_new_message_values (s : SystemStatuses) (e : MetricsEnv) : SystemStatuses :=
  let s := set_arm_connection_status s
  let s := set_arm_end_effector_connection_statuses s
  let s := set_cameras s e
  let s := set_sample_containment_connection_status s
  let s := set_tower_connection_status s
  let s := set_chassis_pan_tilt_connection_status s
  let s := set_jetson_usage_information s e
  let s := set_frsky_controller_connection_status s
  s

/-- Result of `pynmea2.parse` on an inbound GPS sentence, abstracted: parsing
may raise, or yield a GGA record, a VTG record (whose speed field itself may
fail `float` conversion and whose `true_track` may be `None`), or a sentence
of another type. -/
inductive NmeaParse where
  | parseRaised
  | gga (gps_qual : Int) (num_sats : Int) (horizontal_dil : ℚ)
  | vtg (spd_over_grnd_kmph : Option ℚ) (true_track : Option ℚ)
  | otherSentence
deriving DecidableEq

/-- `__set_gps_info`: `gps_connected` is set to `True` before the parse is
attempted; a parse exception returns early; GGA fills fix quality, satellite
count and dilution; VTG fills speed (kept unchanged when `float` raises) and
heading (`-1.0` when `true_track` is `None`). -/
def set_gps_info (s : SystemStatuses) (data : NmeaParse) : SystemStatuses :=
  let s := { s with GPS_msg := { s.GPS_msg with gps_connected := true } }
  match data with
  | NmeaParse.parseRaised => s
  | NmeaParse.otherSentence => s
  | NmeaParse.gga q ns hd =>
      { s with GPS_msg :=
          { s.GPS_msg with
              gps_fix := decide (q ≠ 0)
              num_satellites := ns
              horizontal_dilution := hd } }
  | NmeaParse.vtg spd tt =>
      let s :=
        match spd with
        | some k => { s with GPS_msg := { s.GPS_msg with kmph := k } }
        | none => s
      match tt with
      | some t => { s with GPS_msg := { s.GPS_msg with gps_heading := t } }
      | none => { s with GPS_msg := { s.GPS_msg with gps_heading := -1 } }

/-- `__iris_status_callback`. -/
def iris_status_callback (s : SystemStatuses) (voltage_24v : Int) : SystemStatuses :=
  { s with battery_message := { battery_voltage := voltage_24v } }

/-- `__left_wheel_callback`. -/
def left_wheel_callback (s : SystemStatuses) (first second : Bool) : SystemStatuses :=
  { s with wheel_msg := { s.wheel_msg with front_left := first, middle_left := second } }

/-- `__right_wheel_callback`. -/
def right_wheel_callback (s : SystemStatuses) (first second : Bool) : SystemStatuses :=
  { s with wheel_msg := { s.wheel_msg with front_right := first, middle_right := second } }

/-- `__rear_wheel_callback`. -/
def rear_wheel_callback (s : SystemStatuses) (first second : Bool) : SystemStatuses :=
  { s with wheel_msg := { s.wheel_msg with rear_left := first, rear_right := second } }

/-- `__frsky_callback`. -/
def frsky_callback (s : SystemStatuses) (controller_present : Bool) : SystemStatuses :=
  { s with FrSky_msg := { frsky_controller_connection_status := controller_present } }

/-- `on_update_requested`: the inbound refresh-now signal. -/
def on_update_requested (s : SystemStatuses) : SystemStatuses :=
  { s with manual_update_requested := true }

/-- `__set_previous_battery_values`. -/
def set_previous_battery_values (s : SystemStatuses) : SystemStatuses :=
  { s with previous_battery_voltage := s.battery_message.battery_voltage }

/-- `__set_previous_camera_values`. -/
def set_previous_camera_values (s : SystemStatuses) : SystemStatuses :=
  { s with
      previous_camera_zed := s.camera_msg.camera_zed
      previous_camera_undercarriage := s.camera_msg.camera_undercarriage
      previous_camera_chassis := s.camera_msg.camera_chassis
      previous_camera_main_navigation := s.camera_msg.camera_main_navigation }

/-- `__set_previous_jetson_values`. -/
def set_previous_jetson_values (s : SystemStatuses) : SystemStatuses :=
  { s with
      previous_jetson_cpu := s.jetson_msg.jetson_cpu
      previous_jetson_ram := s.jetson_msg.jetson_ram
      previous_jetson_emmc := s.jetson_msg.jetson_emmc
      previous_jetson_nvme_ssd := s.jetson_msg.jetson_nvme_ssd
      previous_jetson_gpu_temp := s.jetson_msg.jetson_gpu_temp }

/-- `__set_previous_frsky_value`. -/
def set_previous_frsky_value (s : SystemStatuses) : SystemStatuses :=
  { s with previous_frsky_controller_connection_status :=
      s.FrSky_msg.frsky_controller_connection_status }

/-- `__set_previous_wheel_values`. -/
def set_previous_wheel_values (s : SystemStatuses) : SystemStatuses :=
  { s with
      previous_wheel_front_left := s.wheel_msg.front_left
      previous_wheel_middle_left := s.wheel_msg.middle_left
      previous_wheel_rear_left := s.wheel_msg.rear_left
      previous_wheel_front_right := s.wheel_msg.front_right
      previous_wheel_middle_right := s.wheel_msg.middle_right
      previous_wheel_rear_right := s.wheel_msg.rear_right }

/-- `__set_previous_gps_values`. -/
def set_previous_gps_values (s : SystemStatuses) : SystemStatuses :=
  { s with
      previous_gps_connected := s.GPS_msg.gps_connected
      previous_gps_fix := s.GPS_msg.gps_fix
      previous_gps_num_satellites := s.GPS_msg.num_satellites
      previous_gps_horizontal_dilution := s.GPS_msg.horizontal_dilution
      previous_gps_kmph := s.GPS_msg.kmph
      previous_gps_heading := s.GPS_msg.gps_heading }

/-- `__set_previous_misc_values`. -/
def set_previous_misc_values (s : SystemStatuses) : SystemStatuses :=
  { s with
      previous_arm_connection_status := s.misc_msg.arm_connection_status
      previous_arm_end_effector_connection_statuses :=
        s.misc_msg.arm_end_effector_connection_statuses
      previous_chassis_pan_tilt_connection_status :=
        s.misc_msg.chassis_pan_tilt_connection_status
      previous_sample_containment_connection_status :=
        s.misc_msg.sample_containment_connection_status
      previous_tower_connection_status := s.misc_msg.tower_connection_status }

/-- Condition of the battery publish block of `main_loop` (line 348). -/
def batteryGate (s : SystemStatuses) : Bool :=
  decide (s.battery_message.battery_voltage ≠ s.previous_battery_voltage) ||
    s.manual_update_requested

/-- Condition of the camera publish block of `main_loop` (line 357). -/
def cameraGate (s : SystemStatuses) : Bool :=
  decide (s.camera_msg.camera_zed ≠ s.previous_camera_zed) ||
  decide (s.camera_msg.camera_undercarriage ≠ s.previous_camera_undercarriage) ||
  decide (s.camera_msg.camera_chassis ≠ s.previous_camera_chassis) ||
  decide (s.camera_msg.camera_main_navigation ≠ s.previous_camera_main_navigation) ||
  s.manual_update_requested

/-- Condition of the Jetson publish block of `main_loop` (line 366). -/
def jetsonGate (s : SystemStatuses) : Bool :=
  decide (s.jetson_msg.jetson_cpu ≠ s.previous_jetson_cpu) ||
  decide (s.jetson_msg.jetson_ram ≠ s.previous_jetson_ram) ||
  decide (s.jetson_msg.jetson_emmc ≠ s.previous_jetson_emmc) ||
  decide (s.jetson_msg.jetson_nvme_ssd ≠ s.previous_jetson_nvme_ssd) ||
  decide (s.jetson_msg.jetson_gpu_temp ≠ s.previous_jetson_gpu_temp) ||
  s.manual_update_requested

/-- Condition of the FrSky publish block of `main_loop` (line 378). -/
def frskyGate (s : SystemStatuses) : Bool :=
  decide (s.FrSky_msg.frsky_controller_connection_status ≠
    s.previous_frsky_controller_connection_status) ||
  s.manual_update_requested

/-- Condition of the wheel publish block of `main_loop` (line 384). -/
def wheelGate (s : SystemStatuses) : Bool :=
  decide (s.wheel_msg.front_left ≠ s.previous_wheel_front_left) ||
  decide (s.wheel_msg.middle_left ≠ s.previous_wheel_middle_left) ||
  decide (s.wheel_msg.rear_left ≠ s.previous_wheel_rear_left) ||
  decide (s.wheel_msg.front_right ≠ s.previous_wheel_front_right) ||
  decide (s.wheel_msg.middle_right ≠ s.previous_wheel_middle_right) ||
  decide (s.wheel_msg.rear_right ≠ s.previous_wheel_rear_right) ||
  s.manual_update_requested

/-- Condition of the GPS publish block of `main_loop` (line 402).  The source
checks the six GPS fields and, unlike every other category, does not include
`self.manual_update_requested`. -/
def gpsGate (s : SystemStatuses) : Bool :=
  decide (s.GPS_msg.gps_connected ≠ s.previous_gps_connected) ||
  decide (s.GPS_msg.gps_fix ≠ s.previous_gps_fix) ||
  decide (s.GPS_msg.num_satellites ≠ s.previous_gps_num_satellites) ||
  decide (s.GPS_msg.horizontal_dilution ≠ s.previous_gps_horizontal_dilution) ||
  decide (s.GPS_msg.kmph ≠ s.previous_gps_kmph) ||
  decide (s.GPS_msg.gps_heading ≠ s.previous_gps_heading)

/-- Condition of the misc publish block of `main_loop` (line 412). -/
def miscGate (s : SystemStatuses) : Bool :=
  decide (s.misc_msg.arm_connection_status ≠ s.previous_arm_connection_status) ||
  decide (s.misc_msg.arm_end_effector_connection_statuses ≠
    s.previous_arm_end_effector_connection_statuses) ||
  decide (s.misc_msg.chassis_pan_tilt_connection_status ≠
    s.previous_chassis_pan_tilt_connection_status) ||
  decide (s.misc_msg.sample_containment_connection_status ≠
    s.previous_sample_containment_connection_status) ||
  decide (s.misc_msg.tower_connection_status ≠ s.previous_tower_connection_status) ||
  s.manual_update_requested

/-- Battery block of `main_loop`: inside the change/manual check, the rate
ceiling is applied; a publish records the new previous value, publishes the
record, and stamps `last_iris_message_sent`. -/
def batteryStep (s : SystemStatuses) (now : ℚ) :
    SystemStatuses × Option BatteryStatusMessage :=
  if batteryGate s then
    if now - s.last_iris_message_sent > 1 / MAX_IRIS_UPDATE_HERTZ then
      let s1 := { set_previous_battery_values s with last_iris_message_sent := now }
      (s1, some s1.battery_message)
    else (s, none)
  else (s, none)

/-- Camera block of `main_loop`. -/
def cameraStep (s : SystemStatuses) : SystemStatuses × Option CameraStatuses :=
  if cameraGate s then (set_previous_camera_values s, some s.camera_msg) else (s, none)

/-- Jetson block of `main_loop`, with its rate ceiling. -/
def jetsonStep (s : SystemStatuses) (now : ℚ) : SystemStatuses × Option JetsonInfo :=
  if jetsonGate s then
    if now - s.last_jetson_message_sent > 1 / MAX_JETSON_UPDATE_HERTZ then
      let s1 := { set_previous_jetson_values s with last_jetson_message_sent := now }
      (s1, some s1.jetson_msg)
    else (s, none)
  else (s, none)

/-- FrSky block of `main_loop`. -/
def frskyStep (s : SystemStatuses) : SystemStatuses × Option FrSkyStatus :=
  if frskyGate s then (set_previous_frsky_value s, some s.FrSky_msg) else (s, none)

/-- Wheel block of `main_loop`. -/
def wheelStep (s : SystemStatuses) : SystemStatuses × Option WheelStatuses :=
  if wheelGate s then (set_previous_wheel_values s, some s.wheel_msg) else (s, none)

/-- GPS block of `main_loop`. -/
def gpsStep (s : SystemStatuses) : SystemStatuses × Option GPSInfo :=
  if gpsGate s then (set_previous_gps_values s, some s.GPS_msg) else (s, none)

/-- Misc block of `main_loop`. -/
def miscStep (s : SystemStatuses) : SystemStatuses × Option MiscStatuses :=
  if miscGate s then (set_previous_misc_values s, some s.misc_msg) else (s, none)

/-- Final block of `main_loop`: clear the manual flag if it was set. -/
def clearManual (s : SystemStatuses) : SystemStatuses :=
  if s.manual_update_requested then { s with manual_update_requested := false } else s

/-- What one `main_loop` tick published, one entry per topic. -/
structure TickOutput where
  battery : Option BatteryStatusMessage
  camera : Option CameraStatuses
  jetson : Option JetsonInfo
  frsky : Option FrSkyStatus
  wheel : Option WheelStatuses
  gps : Option GPSInfo
  misc : Option MiscStatuses
deriving DecidableEq

/-- The publish blocks of `main_loop`, in source order (battery, camera,
jetson, frsky, wheel, gps, misc), followed by clearing the manual flag. -/
def publishPhase (s : SystemStatuses) (now : ℚ) : SystemStatuses × TickOutput :=
  let b := batteryStep s now
  let c := cameraStep b.1
  let j := jetsonStep c.1 now
  let f := frskyStep j.1
  let w := wheelStep f.1
  let g := gpsStep w.1
  let m := miscStep g.1
  let sEnd := clearManual m.1
  (sEnd,
   { battery := b.2, camera := c.2, jetson := j.2, frsky := f.2,
     wheel := w.2, gps := g.2, misc := m.2 })

/-- `main_loop` of `SystemStatuses`: refresh all record values, then run the
publish blocks in source order, then clear the manual flag.  `now` stands for
`time()` during the tick and `e` for the OS-provided metric values read by
the refresh. -/
def main_loop (s0 : SystemStatuses) (e : MetricsEnv) (now : ℚ) :
    SystemStatuses × TickOutput :=
  publishPhase (pull_new_message_values s0 e) now

/-- Full publish condition of the battery block: the change/manual gate and
the rate ceiling together. -/
def batteryPub (s : SystemStatuses) (now : ℚ) : Bool :=
  batteryGate s && decide (now - s.last_iris_message_sent > 1 / MAX_IRIS_UPDATE_HERTZ)

/-- Full publish condition of the Jetson block: the change/manual gate and
the rate ceiling together. -/
def jetsonPub (s : SystemStatuses) (now : ℚ) : Bool :=
  jetsonGate s && decide (now - s.last_jetson_message_sent > 1 / MAX_JETSON_UPDATE_HERTZ)

/-- The misc record right after a refresh: every field is written `False`. -/
def miscRefreshed : MiscStatuses :=
  { arm_connection_status := false
    arm_end_effector_connection_statuses := false
    chassis_pan_tilt_connection_status := false
    sample_containment_connection_status := false
    tower_connection_status := false }

/-- The camera gate as evaluated on a tick: the refresh has just overwritten
the camera record with the `os.path.exists` results from `e`. -/
def cameraGateE (s : SystemStatuses) (e : MetricsEnv) : Bool :=
  decide (e.camera_zed ≠ s.previous_camera_zed) ||
  decide (e.camera_undercarriage ≠ s.previous_camera_undercarriage) ||
  decide (e.camera_chassis ≠ s.previous_camera_chassis) ||
  decide (e.camera_main_navigation ≠ s.previous_camera_main_navigation) ||
  s.manual_update_requested

/-- The Jetson gate as evaluated on a tick: the refresh has just overwritten
the Jetson record with the metric values from `e`. -/
def jetsonGateE (s : SystemStatuses) (e : MetricsEnv) : Bool :=
  decide (e.jetson_cpu ≠ s.previous_jetson_cpu) ||
  decide (e.jetson_ram ≠ s.previous_jetson_ram) ||
  decide (e.jetson_emmc ≠ s.previous_jetson_emmc) ||
  decide (e.jetson_nvme_ssd ≠ s.previous_jetson_nvme_ssd) ||
  decide (e.jetson_gpu_temp ≠ s.previous_jetson_gpu_temp) ||
  s.manual_update_requested

/-- Full Jetson publish condition as evaluated on a tick. -/
def jetsonPubE (s : SystemStatuses) (e : MetricsEnv) (now : ℚ) : Bool :=
  jetsonGateE s e &&
    decide (now - s.last_jetson_message_sent > 1 / MAX_JETSON_UPDATE_HERTZ)

/-- The misc gate as evaluated on a tick: the refresh has just written `False`
into every misc field. -/
def miscGateE (s : SystemStatuses) : Bool :=
  decide (false ≠ s.previous_arm_connection_status) ||
  decide (false ≠ s.previous_arm_end_effector_connection_statuses) ||
  decide (false ≠ s.previous_chassis_pan_tilt_connection_status) ||
  decide (false ≠ s.previous_sample_containment_connection_status) ||
  decide (false ≠ s.previous_tower_connection_status) ||
  s.manual_update_requested

/-- Camera record as the refresh computes it from the OS environment. -/
def cameraFromEnv (e : MetricsEnv) : CameraStatuses :=
  { camera_zed := e.camera_zed
    camera_undercarriage := e.camera_undercarriage
    camera_chassis := e.camera_chassis
    camera_main_navigation := e.camera_main_navigation }

/-- Jetson record as the refresh computes it from the OS environment. -/
def jetsonFromEnv (e : MetricsEnv) : JetsonInfo :=
  { jetson_cpu := e.jetson_cpu
    jetson_ram := e.jetson_ram
    jetson_emmc := e.jetson_emmc
    jetson_nvme_ssd := e.jetson_nvme_ssd
    jetson_gpu_temp := e.jetson_gpu_temp }

/-- The last-published battery snapshot held in the ad-hoc previous field. -/
def batterySnapshot (s : SystemStatuses) : BatteryStatusMessage :=
  { battery_voltage := s.previous_battery_voltage }

/-- The last-published camera snapshot held in the ad-hoc previous fields. -/
def cameraSnapshot (s : SystemStatuses) : CameraStatuses :=
  { camera_zed := s.previous_camera_zed
    camera_undercarriage := s.previous_camera_undercarriage
    camera_chassis := s.previous_camera_chassis
    camera_main_navigation := s.previous_camera_main_navigation }

/-- The last-published Jetson snapshot held in the ad-hoc previous fields. -/
def jetsonSnapshot (s : SystemStatuses) : JetsonInfo :=
  { jetson_cpu := s.previous_jetson_cpu
    jetson_ram := s.previous_jetson_ram
    jetson_emmc := s.previous_jetson_emmc
    jetson_nvme_ssd := s.previous_jetson_nvme_ssd
    jetson_gpu_temp := s.previous_jetson_gpu_temp }

/-- The last-published FrSky snapshot held in the ad-hoc previous field. -/
def frskySnapshot (s : SystemStatuses) : FrSkyStatus :=
  { frsky_controller_connection_status := s.previous_frsky_controller_connection_status }

/-- The last-published wheel snapshot held in the ad-hoc previous fields. -/
def wheelSnapshot (s : SystemStatuses) : WheelStatuses :=
  { front_left := s.previous_wheel_front_left
    middle_left := s.previous_wheel_middle_left
    rear_left := s.previous_wheel_rear_left
    front_right := s.previous_wheel_front_right
    middle_right := s.previous_wheel_middle_right
    rear_right := s.previous_wheel_rear_right }

/-- The last-published GPS snapshot held in the ad-hoc previous fields. -/
def gpsSnapshot (s : SystemStatuses) : GPSInfo :=
  { gps_connected := s.previous_gps_connected
    gps_fix := s.previous_gps_fix
    num_satellites := s.previous_gps_num_satellites
    horizontal_dilution := s.previous_gps_horizontal_dilution
    kmph := s.previous_gps_kmph
    gps_heading := s.previous_gps_heading }

/-- The last-published misc snapshot held in the ad-hoc previous fields. -/
def miscSnapshot (s : SystemStatuses) : MiscStatuses :=
  { arm_connection_status := s.previous_arm_connection_status
    arm_end_effector_connection_statuses := s.previous_arm_end_effector_connection_statuses
    chassis_pan_tilt_connection_status := s.previous_chassis_pan_tilt_connection_status
    sample_containment_connection_status := s.previous_sample_containment_connection_status
    tower_connection_status := s.previous_tower_connection_status }

/-- The seven status records of a node state, bundled for comparison. -/
def statusRecords (s : SystemStatuses) :
    BatteryStatusMessage × CameraStatuses × WheelStatuses × FrSkyStatus ×
      GPSInfo × JetsonInfo × MiscStatuses :=
  (s.battery_message, s.camera_msg, s.wheel_msg, s.FrSky_msg, s.GPS_msg,
   s.jetson_msg, s.misc_msg)

/-- Every state-mutating entry point of the `SystemStatuses` node: the tick,
the per-tick refresh alone, and each subscription callback with its payload. -/
inductive StatusOp where
  | tick (e : MetricsEnv) (now : ℚ)
  | pullValues (e : MetricsEnv)
  | gpsSentence (data : NmeaParse)
  | irisStatus (voltage_24v : Int)
  | leftWheel (first second : Bool)
  | rightWheel (first second : Bool)
  | rearWheel (first second : Bool)
  | frskyDrive (controller_present : Bool)
  | updateRequested
deriving DecidableEq

/-- Apply one entry point to the node state. -/
def applyStatusOp (op : StatusOp) (s : SystemStatuses) : SystemStatuses :=
  match op with
  | StatusOp.tick e now => (main_loop s e now).1
  | StatusOp.pullValues e => pull_new_message_values s e
  | StatusOp.gpsSentence data => set_gps_info s data
  | StatusOp.irisStatus v => iris_status_callback s v
  | StatusOp.leftWheel a b => left_wheel_callback s a b
  | StatusOp.rightWheel a b => right_wheel_callback s a b
  | StatusOp.rearWheel a b => rear_wheel_callback s a b
  | StatusOp.frskyDrive b => frsky_callback s b
  | StatusOp.updateRequested => on_update_requested s

/-- A fully zeroed node state whose snapshots agree with its records and with
`baseEnv`: records all false / 0, previous values matching, timestamps 0. -/
def baseState : SystemStatuses :=
  { battery_message := { battery_voltage := 0 }
    camera_msg := { camera_zed := false, camera_undercarriage := false,
                    camera_chassis := false, camera_main_navigation := false }
    wheel_msg := { front_left := false, middle_left := false, rear_left := false,
                   front_right := false, middle_right := false, rear_right := false }
    FrSky_msg := { frsky_controller_connection_status := false }
    GPS_msg := { gps_connected := false, gps_fix := false, num_satellites := 0,
                 horizontal_dilution := 0, kmph := 0, gps_heading := 0 }
    jetson_msg := { jetson_cpu := 0, jetson_ram := 0, jetson_emmc := 0,
                    jetson_nvme_ssd := 0, jetson_gpu_temp := 0 }
    misc_msg := { arm_connection_status := false,
                  arm_end_effector_connection_statuses := false,
                  chassis_pan_tilt_connection_status := false,
                  sample_containment_connection_status := false,
                  tower_connection_status := false }
    previous_battery_voltage := 0
    previous_camera_zed := false
    previous_camera_undercarriage := false
    previous_camera_chassis := false
    previous_camera_main_navigation := false
    previous_jetson_cpu := 0
    previous_jetson_ram := 0
    previous_jetson_emmc := 0
    previous_jetson_nvme_ssd := 0
    previous_jetson_gpu_temp := 0
    previous_frsky_controller_connection_status := false
    previous_wheel_front_left := false
    previous_wheel_middle_left := false
    previous_wheel_rear_left := false
    previous_wheel_front_right := false
    previous_wheel_middle_right := false
    previous_wheel_rear_right := false
    previous_gps_connected := false
    previous_gps_fix := false
    previous_gps_num_satellites := 0
    previous_gps_horizontal_dilution := 0
    previous_gps_kmph := 0
    previous_gps_heading := 0
    previous_arm_connection_status := false
    previous_arm_end_effector_connection_statuses := false
    previous_chassis_pan_tilt_connection_status := false
    previous_sample_containment_connection_status := false
    previous_tower_connection_status := false
    manual_update_requested := false
    last_jetson_message_sent := 0
    last_iris_message_sent := 0
    iris_drive_subscription_count := 0 }

/-- An OS environment matching `baseState`: no cameras present, all metrics 0. -/
def baseEnv : MetricsEnv :=
  { camera_zed := false, camera_undercarriage := false, camera_chassis := false,
    camera_main_navigation := false, jetson_cpu := 0, jetson_ram := 0,
    jetson_emmc := 0, jetson_nvme_ssd := 0, jetson_gpu_temp := 0 }

/-- `baseState` after the refresh-now signal, with every rate window elapsed
by the next tick at time 10. -/
def manualRefreshState : SystemStatuses :=
  { baseState with manual_update_requested := true }

/-- `baseState` after the refresh-now signal, but with a battery publish
recorded 2 seconds before the next tick at time 10 (inside the 5 s window). -/
def manualRefreshStateInWindow : SystemStatuses :=
  { baseState with manual_update_requested := true, last_iris_message_sent := 8 }

/-- `baseState` with a changed battery reading not yet published. -/
def changedBatteryState : SystemStatuses :=
  { baseState with battery_message := { battery_voltage := 7 } }

/-- `baseEnv` with a changed Jetson CPU metric. -/
def changedJetsonEnv : MetricsEnv :=
  { baseEnv with jetson_cpu := 50 }

/-- `baseState` with `gps_connected` already observed true. -/
def gpsSeenState : SystemStatuses :=
  { baseState with GPS_msg := { baseState.GPS_msg with gps_connected := true } }

/-- Statement of claim C1 (its conclusion, under "no manual override pending"):
each category's gate decision is true iff the record differs from the snapshot
field by field; a just-published category is not re-published by the next tick
when nothing changed in between; any field difference publishes the whole
record of the un-throttled categories and updates the snapshot. -/
def changeGateClaim (s : SystemStatuses) (e : MetricsEnv) (now1 now2 : ℚ) : Prop :=
  (batteryGate s = true ↔
    s.battery_message.battery_voltage ≠ s.previous_battery_voltage) ∧
  (cameraGate s = true ↔
    (s.camera_msg.camera_zed ≠ s.previous_camera_zed ∨
     s.camera_msg.camera_undercarriage ≠ s.previous_camera_undercarriage ∨
     s.camera_msg.camera_chassis ≠ s.previous_camera_chassis ∨
     s.camera_msg.camera_main_navigation ≠ s.previous_camera_main_navigation)) ∧
  (jetsonGate s = true ↔
    (s.jetson_msg.jetson_cpu ≠ s.previous_jetson_cpu ∨
     s.jetson_msg.jetson_ram ≠ s.previous_jetson_ram ∨
     s.jetson_msg.jetson_emmc ≠ s.previous_jetson_emmc ∨
     s.jetson_msg.jetson_nvme_ssd ≠ s.previous_jetson_nvme_ssd ∨
     s.jetson_msg.jetson_gpu_temp ≠ s.previous_jetson_gpu_temp)) ∧
  (frskyGate s = true ↔
    s.FrSky_msg.frsky_controller_connection_status ≠
      s.previous_frsky_controller_connection_status) ∧
  (wheelGate s = true ↔
    (s.wheel_msg.front_left ≠ s.previous_wheel_front_left ∨
     s.wheel_msg.middle_left ≠ s.previous_wheel_middle_left ∨
     s.wheel_msg.rear_left ≠ s.previous_wheel_rear_left ∨
     s.wheel_msg.front_right ≠ s.previous_wheel_front_right ∨
     s.wheel_msg.middle_right ≠ s.previous_wheel_middle_right ∨
     s.wheel_msg.rear_right ≠ s.previous_wheel_rear_right)) ∧
  (gpsGate s = true ↔
    (s.GPS_msg.gps_connected ≠ s.previous_gps_connected ∨
     s.GPS_msg.gps_fix ≠ s.previous_gps_fix ∨
     s.GPS_msg.num_satellites ≠ s.previous_gps_num_satellites ∨
     s.GPS_msg.horizontal_dilution ≠ s.previous_gps_horizontal_dilution ∨
     s.GPS_msg.kmph ≠ s.previous_gps_kmph ∨
     s.GPS_msg.gps_heading ≠ s.previous_gps_heading)) ∧
  (miscGate s = true ↔
    (s.misc_msg.arm_connection_status ≠ s.previous_arm_connection_status ∨
     s.misc_msg.arm_end_effector_connection_statuses ≠
       s.previous_arm_end_effector_connection_statuses ∨
     s.misc_msg.chassis_pan_tilt_connection_status ≠
       s.previous_chassis_pan_tilt_connection_status ∨
     s.misc_msg.sample_containment_connection_status ≠
       s.previous_sample_containment_connection_status ∨
     s.misc_msg.tower_connection_status ≠ s.previous_tower_connection_status)) ∧
  ((main_loop s e now1).2.battery.isSome →
    (main_loop (main_loop s e now1).1 e now2).2.battery = none) ∧
  ((main_loop s e now1).2.camera.isSome →
    (main_loop (main_loop s e now1).1 e now2).2.camera = none) ∧
  ((main_loop s e now1).2.jetson.isSome →
    (main_loop (main_loop s e now1).1 e now2).2.jetson = none) ∧
  ((main_loop s e now1).2.frsky.isSome →
    (main_loop (main_loop s e now1).1 e now2).2.frsky = none) ∧
  ((main_loop s e now1).2.wheel.isSome →
    (main_loop (main_loop s e now1).1 e now2).2.wheel = none) ∧
  ((main_loop s e now1).2.gps.isSome →
    (main_loop (main_loop s e now1).1 e now2).2.gps = none) ∧
  ((main_loop s e now1).2.misc.isSome →
    (main_loop (main_loop s e now1).1 e now2).2.misc = none) ∧
  (cameraFromEnv e ≠ cameraSnapshot s →
    (main_loop s e now1).2.camera = some (cameraFromEnv e) ∧
    cameraSnapshot (main_loop s e now1).1 = cameraFromEnv e) ∧
  (s.wheel_msg ≠ wheelSnapshot s →
    (main_loop s e now1).2.wheel = some s.wheel_msg ∧
    wheelSnapshot (main_loop s e now1).1 = s.wheel_msg) ∧
  (s.GPS_msg ≠ gpsSnapshot s →
    (main_loop s e now1).2.gps = some s.GPS_msg ∧
    gpsSnapshot (main_loop s e now1).1 = s.GPS_msg) ∧
  (s.FrSky_msg ≠ frskySnapshot s →
    (main_loop s e now1).2.frsky = some s.FrSky_msg ∧
    frskySnapshot (main_loop s e now1).1 = s.FrSky_msg) ∧
  (miscRefreshed ≠ miscSnapshot s →
    (main_loop s e now1).2.misc = some miscRefreshed ∧
    miscSnapshot (main_loop s e now1).1 = miscRefreshed)

/-- Statement of claim C2 (its conclusion): with a changed battery reading and
changed Jetson metrics, a tick inside the 5-second window suppresses and drops
both, a tick after the window publishes the still-different values and stamps
the timestamps, and a third tick within 5 seconds of that publish suppresses
even freshly changed values. -/
def rateCeilingClaim (s : SystemStatuses) (e e3 : MetricsEnv) (v : Int)
    (now1 now2 now3 : ℚ) : Prop :=
  MAX_IRIS_UPDATE_HERTZ = 1 / 5 ∧ MAX_JETSON_UPDATE_HERTZ = 1 / 5 ∧
  (1 : ℚ) / MAX_IRIS_UPDATE_HERTZ = 5 ∧
  (main_loop s e now1).2.battery = none ∧
  (main_loop s e now1).1.previous_battery_voltage = s.previous_battery_voltage ∧
  (main_loop s e now1).1.last_iris_message_sent = s.last_iris_message_sent ∧
  (main_loop s e now1).1.battery_message = s.battery_message ∧
  (main_loop s e now1).2.jetson = none ∧
  jetsonSnapshot (main_loop s e now1).1 = jetsonSnapshot s ∧
  (main_loop s e now1).1.last_jetson_message_sent = s.last_jetson_message_sent ∧
  (main_loop (main_loop s e now1).1 e now2).2.battery = some s.battery_message ∧
  (main_loop (main_loop s e now1).1 e now2).1.previous_battery_voltage =
    s.battery_message.battery_voltage ∧
  (main_loop (main_loop s e now1).1 e now2).1.last_iris_message_sent = now2 ∧
  (main_loop (main_loop s e now1).1 e now2).2.jetson = some (jetsonFromEnv e) ∧
  jetsonSnapshot (main_loop (main_loop s e now1).1 e now2).1 = jetsonFromEnv e ∧
  (main_loop (main_loop s e now1).1 e now2).1.last_jetson_message_sent = now2 ∧
  (main_loop
    (iris_status_callback (main_loop (main_loop s e now1).1 e now2).1 v)
    e3 now3).2.battery = none ∧
  (main_loop
    (iris_status_callback (main_loop (main_loop s e now1).1 e now2).1 v)
    e3 now3).2.jetson = none

/-- Statement of the amended claim C3 (its conclusion): the tick consuming the
manual-refresh flag publishes every category except GPS regardless of value
equality, clears the flag, and the next unchanged tick publishes nothing. -/
def manualRefreshClaim (s : SystemStatuses) (e : MetricsEnv) (now now2 : ℚ) : Prop :=
  (main_loop s e now).2.battery = some s.battery_message ∧
  (main_loop s e now).2.camera = some (cameraFromEnv e) ∧
  (main_loop s e now).2.jetson = some (jetsonFromEnv e) ∧
  (main_loop s e now).2.frsky = some s.FrSky_msg ∧
  (main_loop s e now).2.wheel = some s.wheel_msg ∧
  (main_loop s e now).2.misc = some miscRefreshed ∧
  (main_loop s e now).2.gps = none ∧
  (main_loop s e now).1.manual_update_requested = false ∧
  (main_loop (main_loop s e now).1 e now2).2 =
    { battery := none, camera := none, jetson := none, frsky := none,
      wheel := none, gps := none, misc := none }

end Rover.Status

namespace Rover.Iris

/-- Statement of claim C6 (its conclusion): in drive mode, a `(0, 0)` stick
pair maps to the no-controller failsafe command; any other pair maps to the
normalized differential mix with the ignore switch thresholded at `SBUS_MID`;
in particular `left = mid + range`, `right = mid` gives linear `0.5` and
angular `-0.5`. -/
def driveCommandClaim (regs : List Int) (l r ign : Int) : Prop :=
  (l = 0 ∧ r = 0 →
    broadcast_drive_if_current_mode regs =
      Except.ok (some { controller_present := false, ignore_drive_control := true,
                        linear_x := 0, angular_z := 0 })) ∧
  (¬(l = 0 ∧ r = 0) →
    broadcast_drive_if_current_mode regs =
      Except.ok (some
        { controller_present := true
          ignore_drive_control := decide (ign > SBUS_MID)
          linear_x := (((l - SBUS_MID : Int) : ℚ) / SBUS_RANGE +
                        ((r - SBUS_MID : Int) : ℚ) / SBUS_RANGE) / 2
          angular_z := (((r - SBUS_MID : Int) : ℚ) / SBUS_RANGE -
                        ((l - SBUS_MID : Int) : ℚ) / SBUS_RANGE) / 2 })) ∧
  (l = SBUS_MID + 820 → r = SBUS_MID →
    broadcast_drive_if_current_mode regs =
      Except.ok (some { controller_present := true
                        ignore_drive_control := decide (ign > SBUS_MID)
                        linear_x := 1 / 2, angular_z := -(1 / 2) }))

/-- Statement of the amended claim C4 (its conclusion): a register vector too
short to contain the mode switch makes the tick fail closed — nothing is
published, the error is logged and swallowed, and the loop does not exit. -/
def shortFrameClaim (s : IrisState) (now : ℚ) (regs : List Int) : Prop :=
  (main_loop s (some regs) now).2.drive = none ∧
  (main_loop s (some regs) now).2.status = none ∧
  (main_loop s (some regs) now).2.arm_printed = false ∧
  (main_loop s (some regs) now).2.error_logged = true ∧
  (main_loop s (some regs) now).2.exited = false

/-- Statement of the amended claim C5 (its conclusion): with the DRIVE_VS_ARM
register readable as `v`, the drive branch fires iff `v < SBUS_MID`, the arm
branch fires iff `v > SBUS_MIN + SBUS_DEADZONE`, and at least one of the two
branches always fires. -/
def modeSelectionClaim (regs : List Int) (v : Int) : Prop :=
  (drive_branch_fires regs = true ↔ v < SBUS_MID) ∧
  (arm_branch_fires regs = true ↔ v > SBUS_MIN + SBUS_DEADZONE) ∧
  (drive_branch_fires regs = true ∨ arm_branch_fires regs = true)

end Rover.Iris

namespace Rover.Status

attribute [ext] SystemStatuses TickOutput

theorem pull_eq (s : SystemStatuses) (e : MetricsEnv) :
    pull_new_message_values s e =
      { s with
          camera_msg := cameraFromEnv e
          jetson_msg := jetsonFromEnv e
          misc_msg := miscRefreshed
          iris_drive_subscription_count := s.iris_drive_subscription_count + 1 } := rfl

theorem batteryStep_eq (s : SystemStatuses) (now : ℚ) :
    batteryStep s now =
      (if batteryPub s now
       then { s with previous_battery_voltage := s.battery_message.battery_voltage,
                     last_iris_message_sent := now }
       else s,
       if batteryPub s now then some s.battery_message else none) := by
  unfold batteryStep batteryPub
  split_ifs <;> simp_all [set_previous_battery_values] <;> linarith

theorem jetsonStep_eq (s : SystemStatuses) (now : ℚ) :
    jetsonStep s now =
      (if jetsonPub s now
       then { s with previous_jetson_cpu := s.jetson_msg.jetson_cpu,
                     previous_jetson_ram := s.jetson_msg.jetson_ram,
                     previous_jetson_emmc := s.jetson_msg.jetson_emmc,
                     previous_jetson_nvme_ssd := s.jetson_msg.jetson_nvme_ssd,
                     previous_jetson_gpu_temp := s.jetson_msg.jetson_gpu_temp,
                     last_jetson_message_sent := now }
       else s,
       if jetsonPub s now then some s.jetson_msg else none) := by
  unfold jetsonStep jetsonPub
  split_ifs <;> simp_all [set_previous_jetson_values] <;> linarith

theorem cameraStep_eq (s : SystemStatuses) :
    cameraStep s =
      (if cameraGate s
       then { s with previous_camera_zed := s.camera_msg.camera_zed,
                     previous_camera_undercarriage := s.camera_msg.camera_undercarriage,
                     previous_camera_chassis := s.camera_msg.camera_chassis,
                     previous_camera_main_navigation := s.camera_msg.camera_main_navigation }
       else s,
       if cameraGate s then some s.camera_msg else none) := by
  unfold cameraStep
  split_ifs <;> simp_all [set_previous_camera_values]

theorem frskyStep_eq (s : SystemStatuses) :
    frskyStep s =
      (if frskyGate s
       then { s with previous_frsky_controller_connection_status :=
                       s.FrSky_msg.frsky_controller_connection_status }
       else s,
       if frskyGate s then some s.FrSky_msg else none) := by
  unfold frskyStep
  split_ifs <;> simp_all [set_previous_frsky_value]

theorem wheelStep_eq (s : SystemStatuses) :
    wheelStep s =
      (if wheelGate s
       then { s with previous_wheel_front_left := s.wheel_msg.front_left,
                     previous_wheel_middle_left := s.wheel_msg.middle_left,
                     previous_wheel_rear_left := s.wheel_msg.rear_left,
                     previous_wheel_front_right := s.wheel_msg.front_right,
                     previous_wheel_middle_right := s.wheel_msg.middle_right,
                     previous_wheel_rear_right := s.wheel_msg.rear_right }
       else s,
       if wheelGate s then some s.wheel_msg else none) := by
  unfold wheelStep
  split_ifs <;> simp_all [set_previous_wheel_values]

theorem gpsStep_eq (s : SystemStatuses) :
    gpsStep s =
      (if gpsGate s
       then { s with previous_gps_connected := s.GPS_msg.gps_connected,
                     previous_gps_fix := s.GPS_msg.gps_fix,
                     previous_gps_num_satellites := s.GPS_msg.num_satellites,
                     previous_gps_horizontal_dilution := s.GPS_msg.horizontal_dilution,
                     previous_gps_kmph := s.GPS_msg.kmph,
                     previous_gps_heading := s.GPS_msg.gps_heading }
       else s,
       if gpsGate s then some s.GPS_msg else none) := by
  unfold gpsStep
  split_ifs <;> simp_all [set_previous_gps_values]

theorem miscStep_eq (s : SystemStatuses) :
    miscStep s =
      (if miscGate s
       then { s with previous_arm_connection_status := s.misc_msg.arm_connection_status,
                     previous_arm_end_effector_connection_statuses :=
                       s.misc_msg.arm_end_effector_connection_statuses,
                     previous_chassis_pan_tilt_connection_status :=
                       s.misc_msg.chassis_pan_tilt_connection_status,
                     previous_sample_containment_connection_status :=
                       s.misc_msg.sample_containment_connection_status,
                     previous_tower_connection_status := s.misc_msg.tower_connection_status }
       else s,
       if miscGate s then some s.misc_msg else none) := by
  unfold miscStep
  split_ifs <;> simp_all [set_previous_misc_values]

theorem clearManual_eq (s : SystemStatuses) :
    clearManual s = { s with manual_update_requested := false } := by
  unfold clearManual
  split_ifs with h
  · rfl
  · ext <;> simp_all


@[simp] theorem batteryStep_state (s : SystemStatuses) (now : ℚ) :
    (batteryStep s now).1 =
      { s with
          previous_battery_voltage :=
            if batteryPub s now then s.battery_message.battery_voltage
            else s.previous_battery_voltage
          last_iris_message_sent :=
            if batteryPub s now then now else s.last_iris_message_sent } := by
  rw [batteryStep_eq]
  by_cases h : batteryPub s now <;> simp [h]

@[simp] theorem batteryStep_out (s : SystemStatuses) (now : ℚ) :
    (batteryStep s now).2 = if batteryPub s now then some s.battery_message else none := by
  rw [batteryStep_eq]

@[simp] theorem cameraStep_state (s : SystemStatuses) :
    (cameraStep s).1 =
      { s with
          previous_camera_zed :=
            if cameraGate s then s.camera_msg.camera_zed else s.previous_camera_zed
          previous_camera_undercarriage :=
            if cameraGate s then s.camera_msg.camera_undercarriage
            else s.previous_camera_undercarriage
          previous_camera_chassis :=
            if cameraGate s then s.camera_msg.camera_chassis else s.previous_camera_chassis
          previous_camera_main_navigation :=
            if cameraGate s then s.camera_msg.camera_main_navigation
            else s.previous_camera_main_navigation } := by
  rw [cameraStep_eq]
  by_cases h : cameraGate s <;> simp [h]

@[simp] theorem cameraStep_out (s : SystemStatuses) :
    (cameraStep s).2 = if cameraGate s then some s.camera_msg else none := by
  rw [cameraStep_eq]

@[simp] theorem jetsonStep_state (s : SystemStatuses) (now : ℚ) :
    (jetsonStep s now).1 =
      { s with
          previous_jetson_cpu :=
            if jetsonPub s now then s.jetson_msg.jetson_cpu else s.previous_jetson_cpu
          previous_jetson_ram :=
            if jetsonPub s now then s.jetson_msg.jetson_ram else s.previous_jetson_ram
          previous_jetson_emmc :=
            if jetsonPub s now then s.jetson_msg.jetson_emmc else s.previous_jetson_emmc
          previous_jetson_nvme_ssd :=
            if jetsonPub s now then s.jetson_msg.jetson_nvme_ssd
            else s.previous_jetson_nvme_ssd
          previous_jetson_gpu_temp :=
            if jetsonPub s now then s.jetson_msg.jetson_gpu_temp
            else s.previous_jetson_gpu_temp
          last_jetson_message_sent :=
            if jetsonPub s now then now else s.last_jetson_message_sent } := by
  rw [jetsonStep_eq]
  by_cases h : jetsonPub s now <;> simp [h]

@[simp] theorem jetsonStep_out (s : SystemStatuses) (now : ℚ) :
    (jetsonStep s now).2 = if jetsonPub s now then some s.jetson_msg else none := by
  rw [jetsonStep_eq]

@[simp] theorem frskyStep_state (s : SystemStatuses) :
    (frskyStep s).1 =
      { s with
          previous_frsky_controller_connection_status :=
            if frskyGate s then s.FrSky_msg.frsky_controller_connection_status
            else s.previous_frsky_controller_connection_status } := by
  rw [frskyStep_eq]
  by_cases h : frskyGate s <;> simp [h]

@[simp] theorem frskyStep_out (s : SystemStatuses) :
    (frskyStep s).2 = if frskyGate s then some s.FrSky_msg else none := by
  rw [frskyStep_eq]

@[simp] theorem wheelStep_state (s : SystemStatuses) :
    (wheelStep s).1 =
      { s with
          previous_wheel_front_left :=
            if wheelGate s then s.wheel_msg.front_left else s.previous_wheel_front_left
          previous_wheel_middle_left :=
            if wheelGate s then s.wheel_msg.middle_left else s.previous_wheel_middle_left
          previous_wheel_rear_left :=
            if wheelGate s then s.wheel_msg.rear_left else s.previous_wheel_rear_left
          previous_wheel_front_right :=
            if wheelGate s then s.wheel_msg.front_right else s.previous_wheel_front_right
          previous_wheel_middle_right :=
            if wheelGate s then s.wheel_msg.middle_right else s.previous_wheel_middle_right
          previous_wheel_rear_right :=
            if wheelGate s then s.wheel_msg.rear_right else s.previous_wheel_rear_right } := by
  rw [wheelStep_eq]
  by_cases h : wheelGate s <;> simp [h]

@[simp] theorem wheelStep_out (s : SystemStatuses) :
    (wheelStep s).2 = if wheelGate s then some s.wheel_msg else none := by
  rw [wheelStep_eq]

@[simp] theorem gpsStep_state (s : SystemStatuses) :
    (gpsStep s).1 =
      { s with
          previous_gps_connected :=
            if gpsGate s then s.GPS_msg.gps_connected else s.previous_gps_connected
          previous_gps_fix := if gpsGate s then s.GPS_msg.gps_fix else s.previous_gps_fix
          previous_gps_num_satellites :=
            if gpsGate s then s.GPS_msg.num_satellites else s.previous_gps_num_satellites
          previous_gps_horizontal_dilution :=
            if gpsGate s then s.GPS_msg.horizontal_dilution
            else s.previous_gps_horizontal_dilution
          previous_gps_kmph := if gpsGate s then s.GPS_msg.kmph else s.previous_gps_kmph
          previous_gps_heading :=
            if gpsGate s then s.GPS_msg.gps_heading else s.previous_gps_heading } := by
  rw [gpsStep_eq]
  by_cases h : gpsGate s <;> simp [h]

@[simp] theorem gpsStep_out (s : SystemStatuses) :
    (gpsStep s).2 = if gpsGate s then some s.GPS_msg else none := by
  rw [gpsStep_eq]

@[simp] theorem miscStep_state (s : SystemStatuses) :
    (miscStep s).1 =
      { s with
          previous_arm_connection_status :=
            if miscGate s then s.misc_msg.arm_connection_status
            else s.previous_arm_connection_status
          previous_arm_end_effector_connection_statuses :=
            if miscGate s then s.misc_msg.arm_end_effector_connection_statuses
            else s.previous_arm_end_effector_connection_statuses
          previous_chassis_pan_tilt_connection_status :=
            if miscGate s then s.misc_msg.chassis_pan_tilt_connection_status
            else s.previous_chassis_pan_tilt_connection_status
          previous_sample_containment_connection_status :=
            if miscGate s then s.misc_msg.sample_containment_connection_status
            else s.previous_sample_containment_connection_status
          previous_tower_connection_status :=
            if miscGate s then s.misc_msg.tower_connection_status
            else s.previous_tower_connection_status } := by
  rw [miscStep_eq]
  by_cases h : miscGate s <;> simp [h]

@[simp] theorem miscStep_out (s : SystemStatuses) :
    (miscStep s).2 = if miscGate s then some s.misc_msg else none := by
  rw [miscStep_eq]

end Rover.Status

namespace Rover.Status

@[simp] theorem pull_battery_message (s : SystemStatuses) (e : MetricsEnv) :
    (pull_new_message_values s e).battery_message = s.battery_message := rfl

@[simp] theorem pull_wheel_msg (s : SystemStatuses) (e : MetricsEnv) :
    (pull_new_message_values s e).wheel_msg = s.wheel_msg := rfl

@[simp] theorem pull_FrSky_msg (s : SystemStatuses) (e : MetricsEnv) :
    (pull_new_message_values s e).FrSky_msg = s.FrSky_msg := rfl

@[simp] theorem pull_GPS_msg (s : SystemStatuses) (e : MetricsEnv) :
    (pull_new_message_values s e).GPS_msg = s.GPS_msg := rfl

@[simp] theorem pull_previous_battery_voltage (s : SystemStatuses) (e : MetricsEnv) :
    (pull_new_message_values s e).previous_battery_voltage = s.previous_battery_voltage := rfl

@[simp] theorem pull_previous_camera_zed (s : SystemStatuses) (e : MetricsEnv) :
    (pull_new_message_values s e).previous_camera_zed = s.previous_camera_zed := rfl

@[simp] theorem pull_previous_camera_undercarriage (s : SystemStatuses) (e : MetricsEnv) :
    (pull_new_message_values s e).previous_camera_undercarriage = s.previous_camera_undercarriage := rfl

@[simp] theorem pull_previous_camera_chassis (s : SystemStatuses) (e : MetricsEnv) :
    (pull_new_message_values s e).previous_camera_chassis = s.previous_camera_chassis := rfl

@[simp] theorem pull_previous_camera_main_navigation (s : SystemStatuses) (e : MetricsEnv) :
    (pull_new_message_values s e).previous_camera_main_navigation = s.previous_camera_main_navigation := rfl

@[simp] theorem pull_previous_jetson_cpu (s : SystemStatuses) (e : MetricsEnv) :
    (pull_new_message_values s e).previous_jetson_cpu = s.previous_jetson_cpu := rfl

@[simp] theorem pull_previous_jetson_ram (s : SystemStatuses) (e : MetricsEnv) :
    (pull_new_message_values s e).previous_jetson_ram = s.previous_jetson_ram := rfl

@[simp] theorem pull_previous_jetson_emmc (s : SystemStatuses) (e : MetricsEnv) :
    (pull_new_message_values s e).previous_jetson_emmc = s.previous_jetson_emmc := rfl

@[simp] theorem pull_previous_jetson_nvme_ssd (s : SystemStatuses) (e : MetricsEnv) :
    (pull_new_message_values s e).previous_jetson_nvme_ssd = s.previous_jetson_nvme_ssd := rfl

@[simp] theorem pull_previous_jetson_gpu_temp (s : SystemStatuses) (e : MetricsEnv) :
    (pull_new_message_values s e).previous_jetson_gpu_temp = s.previous_jetson_gpu_temp := rfl

@[simp] theorem pull_previous_frsky_controller_connection_status (s : SystemStatuses) (e : MetricsEnv) :
    (pull_new_message_values s e).previous_frsky_controller_connection_status = s.previous_frsky_controller_connection_status := rfl

@[simp] theorem pull_previous_wheel_front_left (s : SystemStatuses) (e : MetricsEnv) :
    (pull_new_message_values s e).previous_wheel_front_left = s.previous_wheel_front_left := rfl

@[simp] theorem pull_previous_wheel_middle_left (s : SystemStatuses) (e : MetricsEnv) :
    (pull_new_message_values s e).previous_wheel_middle_left = s.previous_wheel_middle_left := rfl

@[simp] theorem pull_previous_wheel_rear_left (s : SystemStatuses) (e : MetricsEnv) :
    (pull_new_message_values s e).previous_wheel_rear_left = s.previous_wheel_rear_left := rfl

@[simp] theorem pull_previous_wheel_front_right (s : SystemStatuses) (e : MetricsEnv) :
    (pull_new_message_values s e).previous_wheel_front_right = s.previous_wheel_front_right := rfl

@[simp] theorem pull_previous_wheel_middle_right (s : SystemStatuses) (e : MetricsEnv) :
    (pull_new_message_values s e).previous_wheel_middle_right = s.previous_wheel_middle_right := rfl

@[simp] theorem pull_previous_wheel_rear_right (s : SystemStatuses) (e : MetricsEnv) :
    (pull_new_message_values s e).previous_wheel_rear_right = s.previous_wheel_rear_right := rfl

@[simp] theorem pull_previous_gps_connected (s : SystemStatuses) (e : MetricsEnv) :
    (pull_new_message_values s e).previous_gps_connected = s.previous_gps_connected := rfl

@[simp] theorem pull_previous_gps_fix (s : SystemStatuses) (e : MetricsEnv) :
    (pull_new_message_values s e).previous_gps_fix = s.previous_gps_fix := rfl

@[simp] theorem pull_previous_gps_num_satellites (s : SystemStatuses) (e : MetricsEnv) :
    (pull_new_message_values s e).previous_gps_num_satellites = s.previous_gps_num_satellites := rfl

@[simp] theorem pull_previous_gps_horizontal_dilution (s : SystemStatuses) (e : MetricsEnv) :
    (pull_new_message_values s e).previous_gps_horizontal_dilution = s.previous_gps_horizontal_dilution := rfl

@[simp] theorem pull_previous_gps_kmph (s : SystemStatuses) (e : MetricsEnv) :
    (pull_new_message_values s e).previous_gps_kmph = s.previous_gps_kmph := rfl

@[simp] theorem pull_previous_gps_heading (s : SystemStatuses) (e : MetricsEnv) :
    (pull_new_message_values s e).previous_gps_heading = s.previous_gps_heading := rfl

@[simp] theorem pull_previous_arm_connection_status (s : SystemStatuses) (e : MetricsEnv) :
    (pull_new_message_values s e).previous_arm_connection_status = s.previous_arm_connection_status := rfl

@[simp] theorem pull_previous_arm_end_effector_connection_statuses (s : SystemStatuses) (e : MetricsEnv) :
    (pull_new_message_values s e).previous_arm_end_effector_connection_statuses = s.previous_arm_end_effector_connection_statuses := rfl

@[simp] theorem pull_previous_chassis_pan_tilt_connection_status (s : SystemStatuses) (e : MetricsEnv) :
    (pull_new_message_values s e).previous_chassis_pan_tilt_connection_status = s.previous_chassis_pan_tilt_connection_status := rfl

@[simp] theorem pull_previous_sample_containment_connection_status (s : SystemStatuses) (e : MetricsEnv) :
    (pull_new_message_values s e).previous_sample_containment_connection_status = s.previous_sample_containment_connection_status := rfl

@[simp] theorem pull_previous_tower_connection_status (s : SystemStatuses) (e : MetricsEnv) :
    (pull_new_message_values s e).previous_tower_connection_status = s.previous_tower_connection_status := rfl

@[simp] theorem pull_manual_update_requested (s : SystemStatuses) (e : MetricsEnv) :
    (pull_new_message_values s e).manual_update_requested = s.manual_update_requested := rfl

@[simp] theorem pull_last_jetson_message_sent (s : SystemStatuses) (e : MetricsEnv) :
    (pull_new_message_values s e).last_jetson_message_sent = s.last_jetson_message_sent := rfl

@[simp] theorem pull_last_iris_message_sent (s : SystemStatuses) (e : MetricsEnv) :
    (pull_new_message_values s e).last_iris_message_sent = s.last_iris_message_sent := rfl

@[simp] theorem pull_camera_msg (s : SystemStatuses) (e : MetricsEnv) :
    (pull_new_message_values s e).camera_msg = cameraFromEnv e := rfl

@[simp] theorem pull_jetson_msg (s : SystemStatuses) (e : MetricsEnv) :
    (pull_new_message_values s e).jetson_msg = jetsonFromEnv e := rfl

@[simp] theorem pull_misc_msg (s : SystemStatuses) (e : MetricsEnv) :
    (pull_new_message_values s e).misc_msg = miscRefreshed := rfl

@[simp] theorem pull_subscription_count (s : SystemStatuses) (e : MetricsEnv) :
    (pull_new_message_values s e).iris_drive_subscription_count =
      s.iris_drive_subscription_count + 1 := rfl

@[simp] theorem batteryGate_pull (s : SystemStatuses) (e : MetricsEnv) :
    batteryGate (pull_new_message_values s e) = batteryGate s := rfl

@[simp] theorem frskyGate_pull (s : SystemStatuses) (e : MetricsEnv) :
    frskyGate (pull_new_message_values s e) = frskyGate s := rfl

@[simp] theorem wheelGate_pull (s : SystemStatuses) (e : MetricsEnv) :
    wheelGate (pull_new_message_values s e) = wheelGate s := rfl

@[simp] theorem gpsGate_pull (s : SystemStatuses) (e : MetricsEnv) :
    gpsGate (pull_new_message_values s e) = gpsGate s := rfl

@[simp] theorem batteryPub_pull (s : SystemStatuses) (e : MetricsEnv) (now : ℚ) :
    batteryPub (pull_new_message_values s e) now = batteryPub s now := rfl

@[simp] theorem cameraGate_pull (s : SystemStatuses) (e : MetricsEnv) :
    cameraGate (pull_new_message_values s e) = cameraGateE s e := rfl

@[simp] theorem jetsonGate_pull (s : SystemStatuses) (e : MetricsEnv) :
    jetsonGate (pull_new_message_values s e) = jetsonGateE s e := rfl

@[simp] theorem jetsonPub_pull (s : SystemStatuses) (e : MetricsEnv) (now : ℚ) :
    jetsonPub (pull_new_message_values s e) now = jetsonPubE s e now := rfl

@[simp] theorem miscGate_pull (s : SystemStatuses) (e : MetricsEnv) :
    miscGate (pull_new_message_values s e) = miscGateE s := rfl

end Rover.Status

namespace Rover.Status

theorem publishPhase_out (s : SystemStatuses) (now : ℚ) :
    (publishPhase s now).2 =
      { battery := if batteryPub s now then some s.battery_message else none
        camera := if cameraGate s then some s.camera_msg else none
        jetson := if jetsonPub s now then some s.jetson_msg else none
        frsky := if frskyGate s then some s.FrSky_msg else none
        wheel := if wheelGate s then some s.wheel_msg else none
        gps := if gpsGate s then some s.GPS_msg else none
        misc := if miscGate s then some s.misc_msg else none } := by
  simp [publishPhase, batteryPub, jetsonPub, batteryGate, cameraGate, jetsonGate,
    frskyGate, wheelGate, gpsGate, miscGate]

theorem publishPhase_state (s : SystemStatuses) (now : ℚ) :
    (publishPhase s now).1 =
      { s with
          previous_battery_voltage :=
            if batteryPub s now then s.battery_message.battery_voltage
            else s.previous_battery_voltage
          last_iris_message_sent :=
            if batteryPub s now then now else s.last_iris_message_sent
          previous_camera_zed :=
            if cameraGate s then s.camera_msg.camera_zed else s.previous_camera_zed
          previous_camera_undercarriage :=
            if cameraGate s then s.camera_msg.camera_undercarriage
            else s.previous_camera_undercarriage
          previous_camera_chassis :=
            if cameraGate s then s.camera_msg.camera_chassis else s.previous_camera_chassis
          previous_camera_main_navigation :=
            if cameraGate s then s.camera_msg.camera_main_navigation
            else s.previous_camera_main_navigation
          previous_jetson_cpu :=
            if jetsonPub s now then s.jetson_msg.jetson_cpu else s.previous_jetson_cpu
          previous_jetson_ram :=
            if jetsonPub s now then s.jetson_msg.jetson_ram else s.previous_jetson_ram
          previous_jetson_emmc :=
            if jetsonPub s now then s.jetson_msg.jetson_emmc else s.previous_jetson_emmc
          previous_jetson_nvme_ssd :=
            if jetsonPub s now then s.jetson_msg.jetson_nvme_ssd
            else s.previous_jetson_nvme_ssd
          previous_jetson_gpu_temp :=
            if jetsonPub s now then s.jetson_msg.jetson_gpu_temp
            else s.previous_jetson_gpu_temp
          last_jetson_message_sent :=
            if jetsonPub s now then now else s.last_jetson_message_sent
          previous_frsky_controller_connection_status :=
            if frskyGate s then s.FrSky_msg.frsky_controller_connection_status
            else s.previous_frsky_controller_connection_status
          previous_wheel_front_left :=
            if wheelGate s then s.wheel_msg.front_left else s.previous_wheel_front_left
          previous_wheel_middle_left :=
            if wheelGate s then s.wheel_msg.middle_left else s.previous_wheel_middle_left
          previous_wheel_rear_left :=
            if wheelGate s then s.wheel_msg.rear_left else s.previous_wheel_rear_left
          previous_wheel_front_right :=
            if wheelGate s then s.wheel_msg.front_right else s.previous_wheel_front_right
          previous_wheel_middle_right :=
            if wheelGate s then s.wheel_msg.middle_right else s.previous_wheel_middle_right
          previous_wheel_rear_right :=
            if wheelGate s then s.wheel_msg.rear_right else s.previous_wheel_rear_right
          previous_gps_connected :=
            if gpsGate s then s.GPS_msg.gps_connected else s.previous_gps_connected
          previous_gps_fix := if gpsGate s then s.GPS_msg.gps_fix else s.previous_gps_fix
          previous_gps_num_satellites :=
            if gpsGate s then s.GPS_msg.num_satellites else s.previous_gps_num_satellites
          previous_gps_horizontal_dilution :=
            if gpsGate s then s.GPS_msg.horizontal_dilution
            else s.previous_gps_horizontal_dilution
          previous_gps_kmph := if gpsGate s then s.GPS_msg.kmph else s.previous_gps_kmph
          previous_gps_heading :=
            if gpsGate s then s.GPS_msg.gps_heading else s.previous_gps_heading
          previous_arm_connection_status :=
            if miscGate s then s.misc_msg.arm_connection_status
            else s.previous_arm_connection_status
          previous_arm_end_effector_connection_statuses :=
            if miscGate s then s.misc_msg.arm_end_effector_connection_statuses
            else s.previous_arm_end_effector_connection_statuses
          previous_chassis_pan_tilt_connection_status :=
            if miscGate s then s.misc_msg.chassis_pan_tilt_connection_status
            else s.previous_chassis_pan_tilt_connection_status
          previous_sample_containment_connection_status :=
            if miscGate s then s.misc_msg.sample_containment_connection_status
            else s.previous_sample_containment_connection_status
          previous_tower_connection_status :=
            if miscGate s then s.misc_msg.tower_connection_status
            else s.previous_tower_connection_status
          manual_update_requested := false } := by
  simp [publishPhase, clearManual_eq, batteryPub, jetsonPub, batteryGate, cameraGate,
    jetsonGate, frskyGate, wheelGate, gpsGate, miscGate]

end Rover.Status

namespace Rover.Iris

theorem getRegister_eq_none (regs : List Int) (i : Nat) (h : regs.length ≤ i) :
    getRegister regs i = Except.error RegisterError.indexOutOfRange := by
  unfold getRegister
  rw [List.getElem?_eq_none h]

theorem getRegister_eq_some (regs : List Int) (i : Nat) (v : Int) (h : regs[i]? = some v) :
    getRegister regs i = Except.ok v := by
  unfold getRegister
  rw [h]

theorem main_loop_state (s : IrisState) (rr : Option (List Int)) (now : ℚ) :
    (main_loop s rr now).1 = read_registers s rr now := by
  unfold main_loop
  cases h1 : broadcast_drive_if_current_mode (read_registers s rr now).registers
  · simp [h1]
  · cases h2 : broadcast_arm_if_current_mode (read_registers s rr now).registers
    · simp [h1, h2]
    · cases h3 : broadcast_iris_status (read_registers s rr now).registers <;> simp [h1, h2, h3]

theorem main_loop_exited (s : IrisState) (rr : Option (List Int)) (now : ℚ) :
    (main_loop s rr now).2.exited =
      decide (now - (read_registers s rr now).iris_last_seen_time > IRIS_LAST_SEEN_TIMEOUT) := by
  unfold main_loop
  cases h1 : broadcast_drive_if_current_mode (read_registers s rr now).registers
  · simp [h1]
  · cases h2 : broadcast_arm_if_current_mode (read_registers s rr now).registers
    · simp [h1, h2]
    · cases h3 : broadcast_iris_status (read_registers s rr now).registers <;> simp [h1, h2, h3]

theorem broadcast_iris_status_eq (regs : List Int) :
    broadcast_iris_status regs =
      (getRegister regs VOLTAGE_24V).map
        (fun v => { iris_connected := true, voltage_24v := v }) := by
  unfold broadcast_iris_status
  cases h : getRegister regs VOLTAGE_24V <;> simp [h, Except.map]

theorem main_loop_status_all_connected (s : IrisState) (rr : Option (List Int)) (now : ℚ) :
    Option.all (fun m => m.iris_connected) (main_loop s rr now).2.status = true := by
  unfold main_loop
  cases h1 : broadcast_drive_if_current_mode (read_registers s rr now).registers
  · simp [h1]
  · cases h2 : broadcast_arm_if_current_mode (read_registers s rr now).registers
    · simp [h1, h2]
    · cases h3 : broadcast_iris_status (read_registers s rr now).registers
      · simp [h1, h2, h3]
      · rename_i st
        rw [broadcast_iris_status_eq] at h3
        cases hv : getRegister (read_registers s rr now).registers VOLTAGE_24V
        · rw [hv] at h3
          exact absurd h3 (by simp [Except.map])
        · rw [hv] at h3
          simp only [Except.map] at h3
          cases h3
          simp [h1, h2, broadcast_iris_status_eq, hv, Except.map]

end Rover.Iris

namespace Rover.Status

@[simp] theorem one_div_MAX_IRIS_UPDATE_HERTZ : (1 : ℚ) / MAX_IRIS_UPDATE_HERTZ = 5 := by
  norm_num [MAX_IRIS_UPDATE_HERTZ]

@[simp] theorem inv_MAX_IRIS_UPDATE_HERTZ : MAX_IRIS_UPDATE_HERTZ⁻¹ = (5 : ℚ) := by
  norm_num [MAX_IRIS_UPDATE_HERTZ]

@[simp] theorem one_div_MAX_JETSON_UPDATE_HERTZ : (1 : ℚ) / MAX_JETSON_UPDATE_HERTZ = 5 := by
  norm_num [MAX_JETSON_UPDATE_HERTZ]

@[simp] theorem inv_MAX_JETSON_UPDATE_HERTZ : MAX_JETSON_UPDATE_HERTZ⁻¹ = (5 : ℚ) := by
  norm_num [MAX_JETSON_UPDATE_HERTZ]

end Rover.Status

namespace Rover.Status

@[simp] theorem cameraFromEnv_camera_zed (e : MetricsEnv) :
    (cameraFromEnv e).camera_zed = e.camera_zed := rfl

@[simp] theorem cameraFromEnv_camera_undercarriage (e : MetricsEnv) :
    (cameraFromEnv e).camera_undercarriage = e.camera_undercarriage := rfl

@[simp] theorem cameraFromEnv_camera_chassis (e : MetricsEnv) :
    (cameraFromEnv e).camera_chassis = e.camera_chassis := rfl

@[simp] theorem cameraFromEnv_camera_main_navigation (e : MetricsEnv) :
    (cameraFromEnv e).camera_main_navigation = e.camera_main_navigation := rfl

@[simp] theorem jetsonFromEnv_jetson_cpu (e : MetricsEnv) :
    (jetsonFromEnv e).jetson_cpu = e.jetson_cpu := rfl

@[simp] theorem jetsonFromEnv_jetson_ram (e : MetricsEnv) :
    (jetsonFromEnv e).jetson_ram = e.jetson_ram := rfl

@[simp] theorem jetsonFromEnv_jetson_emmc (e : MetricsEnv) :
    (jetsonFromEnv e).jetson_emmc = e.jetson_emmc := rfl

@[simp] theorem jetsonFromEnv_jetson_nvme_ssd (e : MetricsEnv) :
    (jetsonFromEnv e).jetson_nvme_ssd = e.jetson_nvme_ssd := rfl

@[simp] theorem jetsonFromEnv_jetson_gpu_temp (e : MetricsEnv) :
    (jetsonFromEnv e).jetson_gpu_temp = e.jetson_gpu_temp := rfl

@[simp] theorem miscRefreshed_arm_connection_status :
    miscRefreshed.arm_connection_status = false := rfl

@[simp] theorem miscRefreshed_arm_end_effector_connection_statuses :
    miscRefreshed.arm_end_effector_connection_statuses = false := rfl

@[simp] theorem miscRefreshed_chassis_pan_tilt_connection_status :
    miscRefreshed.chassis_pan_tilt_connection_status = false := rfl

@[simp] theorem miscRefreshed_sample_containment_connection_status :
    miscRefreshed.sample_containment_connection_status = false := rfl

@[simp] theorem miscRefreshed_tower_connection_status :
    miscRefreshed.tower_connection_status = false := rfl

@[simp] theorem batterySnapshot_battery_voltage (s : SystemStatuses) :
    (batterySnapshot s).battery_voltage = s.previous_battery_voltage := rfl

@[simp] theorem cameraSnapshot_camera_zed (s : SystemStatuses) :
    (cameraSnapshot s).camera_zed = s.previous_camera_zed := rfl

@[simp] theorem cameraSnapshot_camera_undercarriage (s : SystemStatuses) :
    (cameraSnapshot s).camera_undercarriage = s.previous_camera_undercarriage := rfl

@[simp] theorem cameraSnapshot_camera_chassis (s : SystemStatuses) :
    (cameraSnapshot s).camera_chassis = s.previous_camera_chassis := rfl

@[simp] theorem cameraSnapshot_camera_main_navigation (s : SystemStatuses) :
    (cameraSnapshot s).camera_main_navigation = s.previous_camera_main_navigation := rfl

@[simp] theorem jetsonSnapshot_jetson_cpu (s : SystemStatuses) :
    (jetsonSnapshot s).jetson_cpu = s.previous_jetson_cpu := rfl

@[simp] theorem jetsonSnapshot_jetson_ram (s : SystemStatuses) :
    (jetsonSnapshot s).jetson_ram = s.previous_jetson_ram := rfl

@[simp] theorem jetsonSnapshot_jetson_emmc (s : SystemStatuses) :
    (jetsonSnapshot s).jetson_emmc = s.previous_jetson_emmc := rfl

@[simp] theorem jetsonSnapshot_jetson_nvme_ssd (s : SystemStatuses) :
    (jetsonSnapshot s).jetson_nvme_ssd = s.previous_jetson_nvme_ssd := rfl

@[simp] theorem jetsonSnapshot_jetson_gpu_temp (s : SystemStatuses) :
    (jetsonSnapshot s).jetson_gpu_temp = s.previous_jetson_gpu_temp := rfl

@[simp] theorem frskySnapshot_frsky_controller_connection_status (s : SystemStatuses) :
    (frskySnapshot s).frsky_controller_connection_status = s.previous_frsky_controller_connection_status := rfl

@[simp] theorem wheelSnapshot_front_left (s : SystemStatuses) :
    (wheelSnapshot s).front_left = s.previous_wheel_front_left := rfl

@[simp] theorem wheelSnapshot_middle_left (s : SystemStatuses) :
    (wheelSnapshot s).middle_left = s.previous_wheel_middle_left := rfl

@[simp] theorem wheelSnapshot_rear_left (s : SystemStatuses) :
    (wheelSnapshot s).rear_left = s.previous_wheel_rear_left := rfl

@[simp] theorem wheelSnapshot_front_right (s : SystemStatuses) :
    (wheelSnapshot s).front_right = s.previous_wheel_front_right := rfl

@[simp] theorem wheelSnapshot_middle_right (s : SystemStatuses) :
    (wheelSnapshot s).middle_right = s.previous_wheel_middle_right := rfl

@[simp] theorem wheelSnapshot_rear_right (s : SystemStatuses) :
    (wheelSnapshot s).rear_right = s.previous_wheel_rear_right := rfl

@[simp] theorem gpsSnapshot_gps_connected (s : SystemStatuses) :
    (gpsSnapshot s).gps_connected = s.previous_gps_connected := rfl

@[simp] theorem gpsSnapshot_gps_fix (s : SystemStatuses) :
    (gpsSnapshot s).gps_fix = s.previous_gps_fix := rfl

@[simp] theorem gpsSnapshot_num_satellites (s : SystemStatuses) :
    (gpsSnapshot s).num_satellites = s.previous_gps_num_satellites := rfl

@[simp] theorem gpsSnapshot_horizontal_dilution (s : SystemStatuses) :
    (gpsSnapshot s).horizontal_dilution = s.previous_gps_horizontal_dilution := rfl

@[simp] theorem gpsSnapshot_kmph (s : SystemStatuses) :
    (gpsSnapshot s).kmph = s.previous_gps_kmph := rfl

@[simp] theorem gpsSnapshot_gps_heading (s : SystemStatuses) :
    (gpsSnapshot s).gps_heading = s.previous_gps_heading := rfl

@[simp] theorem miscSnapshot_arm_connection_status (s : SystemStatuses) :
    (miscSnapshot s).arm_connection_status = s.previous_arm_connection_status := rfl

@[simp] theorem miscSnapshot_arm_end_effector_connection_statuses (s : SystemStatuses) :
    (miscSnapshot s).arm_end_effector_connection_statuses = s.previous_arm_end_effector_connection_statuses := rfl

@[simp] theorem miscSnapshot_chassis_pan_tilt_connection_status (s : SystemStatuses) :
    (miscSnapshot s).chassis_pan_tilt_connection_status = s.previous_chassis_pan_tilt_connection_status := rfl

@[simp] theorem miscSnapshot_sample_containment_connection_status (s : SystemStatuses) :
    (miscSnapshot s).sample_containment_connection_status = s.previous_sample_containment_connection_status := rfl

@[simp] theorem miscSnapshot_tower_connection_status (s : SystemStatuses) :
    (miscSnapshot s).tower_connection_status = s.previous_tower_connection_status := rfl

@[simp] theorem main_loop_out_battery (s : SystemStatuses) (e : MetricsEnv) (now : ℚ) :
    (main_loop s e now).2.battery = (if batteryPub s now then some s.battery_message else none) := by
  rw [main_loop, publishPhase_out]
  try simp

@[simp] theorem main_loop_out_camera (s : SystemStatuses) (e : MetricsEnv) (now : ℚ) :
    (main_loop s e now).2.camera = (if cameraGateE s e then some (cameraFromEnv e) else none) := by
  rw [main_loop, publishPhase_out]
  try simp

@[simp] theorem main_loop_out_jetson (s : SystemStatuses) (e : MetricsEnv) (now : ℚ) :
    (main_loop s e now).2.jetson = (if jetsonPubE s e now then some (jetsonFromEnv e) else none) := by
  rw [main_loop, publishPhase_out]
  try simp

@[simp] theorem main_loop_out_frsky (s : SystemStatuses) (e : MetricsEnv) (now : ℚ) :
    (main_loop s e now).2.frsky = (if frskyGate s then some s.FrSky_msg else none) := by
  rw [main_loop, publishPhase_out]
  try simp

@[simp] theorem main_loop_out_wheel (s : SystemStatuses) (e : MetricsEnv) (now : ℚ) :
    (main_loop s e now).2.wheel = (if wheelGate s then some s.wheel_msg else none) := by
  rw [main_loop, publishPhase_out]
  try simp

@[simp] theorem main_loop_out_gps (s : SystemStatuses) (e : MetricsEnv) (now : ℚ) :
    (main_loop s e now).2.gps = (if gpsGate s then some s.GPS_msg else none) := by
  rw [main_loop, publishPhase_out]
  try simp

@[simp] theorem main_loop_out_misc (s : SystemStatuses) (e : MetricsEnv) (now : ℚ) :
    (main_loop s e now).2.misc = (if miscGateE s then some miscRefreshed else none) := by
  rw [main_loop, publishPhase_out]
  try simp

@[simp] theorem main_loop_st_battery_message (s : SystemStatuses) (e : MetricsEnv) (now : ℚ) :
    (main_loop s e now).1.battery_message = (s.battery_message) := by
  rw [main_loop, publishPhase_state]
  try simp

@[simp] theorem main_loop_st_camera_msg (s : SystemStatuses) (e : MetricsEnv) (now : ℚ) :
    (main_loop s e now).1.camera_msg = (cameraFromEnv e) := by
  rw [main_loop, publishPhase_state]
  try simp

@[simp] theorem main_loop_st_jetson_msg (s : SystemStatuses) (e : MetricsEnv) (now : ℚ) :
    (main_loop s e now).1.jetson_msg = (jetsonFromEnv e) := by
  rw [main_loop, publishPhase_state]
  try simp

@[simp] theorem main_loop_st_misc_msg (s : SystemStatuses) (e : MetricsEnv) (now : ℚ) :
    (main_loop s e now).1.misc_msg = (miscRefreshed) := by
  rw [main_loop, publishPhase_state]
  try simp

@[simp] theorem main_loop_st_wheel_msg (s : SystemStatuses) (e : MetricsEnv) (now : ℚ) :
    (main_loop s e now).1.wheel_msg = (s.wheel_msg) := by
  rw [main_loop, publishPhase_state]
  try simp

@[simp] theorem main_loop_st_FrSky_msg (s : SystemStatuses) (e : MetricsEnv) (now : ℚ) :
    (main_loop s e now).1.FrSky_msg = (s.FrSky_msg) := by
  rw [main_loop, publishPhase_state]
  try simp

@[simp] theorem main_loop_st_GPS_msg (s : SystemStatuses) (e : MetricsEnv) (now : ℚ) :
    (main_loop s e now).1.GPS_msg = (s.GPS_msg) := by
  rw [main_loop, publishPhase_state]
  try simp

@[simp] theorem main_loop_st_previous_battery_voltage (s : SystemStatuses) (e : MetricsEnv) (now : ℚ) :
    (main_loop s e now).1.previous_battery_voltage = (if batteryPub s now then s.battery_message.battery_voltage else s.previous_battery_voltage) := by
  rw [main_loop, publishPhase_state]
  try simp

@[simp] theorem main_loop_st_last_iris_message_sent (s : SystemStatuses) (e : MetricsEnv) (now : ℚ) :
    (main_loop s e now).1.last_iris_message_sent = (if batteryPub s now then now else s.last_iris_message_sent) := by
  rw [main_loop, publishPhase_state]
  try simp

@[simp] theorem main_loop_st_previous_camera_zed (s : SystemStatuses) (e : MetricsEnv) (now : ℚ) :
    (main_loop s e now).1.previous_camera_zed = (if cameraGateE s e then e.camera_zed else s.previous_camera_zed) := by
  rw [main_loop, publishPhase_state]
  try simp

@[simp] theorem main_loop_st_previous_camera_undercarriage (s : SystemStatuses) (e : MetricsEnv) (now : ℚ) :
    (main_loop s e now).1.previous_camera_undercarriage = (if cameraGateE s e then e.camera_undercarriage else s.previous_camera_undercarriage) := by
  rw [main_loop, publishPhase_state]
  try simp

@[simp] theorem main_loop_st_previous_camera_chassis (s : SystemStatuses) (e : MetricsEnv) (now : ℚ) :
    (main_loop s e now).1.previous_camera_chassis = (if cameraGateE s e then e.camera_chassis else s.previous_camera_chassis) := by
  rw [main_loop, publishPhase_state]
  try simp

@[simp] theorem main_loop_st_previous_camera_main_navigation (s : SystemStatuses) (e : MetricsEnv) (now : ℚ) :
    (main_loop s e now).1.previous_camera_main_navigation = (if cameraGateE s e then e.camera_main_navigation else s.previous_camera_main_navigation) := by
  rw [main_loop, publishPhase_state]
  try simp

@[simp] theorem main_loop_st_previous_jetson_cpu (s : SystemStatuses) (e : MetricsEnv) (now : ℚ) :
    (main_loop s e now).1.previous_jetson_cpu = (if jetsonPubE s e now then e.jetson_cpu else s.previous_jetson_cpu) := by
  rw [main_loop, publishPhase_state]
  try simp

@[simp] theorem main_loop_st_previous_jetson_ram (s : SystemStatuses) (e : MetricsEnv) (now : ℚ) :
    (main_loop s e now).1.previous_jetson_ram = (if jetsonPubE s e now then e.jetson_ram else s.previous_jetson_ram) := by
  rw [main_loop, publishPhase_state]
  try simp

@[simp] theorem main_loop_st_previous_jetson_emmc (s : SystemStatuses) (e : MetricsEnv) (now : ℚ) :
    (main_loop s e now).1.previous_jetson_emmc = (if jetsonPubE s e now then e.jetson_emmc else s.previous_jetson_emmc) := by
  rw [main_loop, publishPhase_state]
  try simp

@[simp] theorem main_loop_st_previous_jetson_nvme_ssd (s : SystemStatuses) (e : MetricsEnv) (now : ℚ) :
    (main_loop s e now).1.previous_jetson_nvme_ssd = (if jetsonPubE s e now then e.jetson_nvme_ssd else s.previous_jetson_nvme_ssd) := by
  rw [main_loop, publishPhase_state]
  try simp

@[simp] theorem main_loop_st_previous_jetson_gpu_temp (s : SystemStatuses) (e : MetricsEnv) (now : ℚ) :
    (main_loop s e now).1.previous_jetson_gpu_temp = (if jetsonPubE s e now then e.jetson_gpu_temp else s.previous_jetson_gpu_temp) := by
  rw [main_loop, publishPhase_state]
  try simp

@[simp] theorem main_loop_st_last_jetson_message_sent (s : SystemStatuses) (e : MetricsEnv) (now : ℚ) :
    (main_loop s e now).1.last_jetson_message_sent = (if jetsonPubE s e now then now else s.last_jetson_message_sent) := by
  rw [main_loop, publishPhase_state]
  try simp

@[simp] theorem main_loop_st_previous_frsky_controller_connection_status (s : SystemStatuses) (e : MetricsEnv) (now : ℚ) :
    (main_loop s e now).1.previous_frsky_controller_connection_status = (if frskyGate s then s.FrSky_msg.frsky_controller_connection_status else s.previous_frsky_controller_connection_status) := by
  rw [main_loop, publishPhase_state]
  try simp

@[simp] theorem main_loop_st_previous_wheel_front_left (s : SystemStatuses) (e : MetricsEnv) (now : ℚ) :
    (main_loop s e now).1.previous_wheel_front_left = (if wheelGate s then s.wheel_msg.front_left else s.previous_wheel_front_left) := by
  rw [main_loop, publishPhase_state]
  try simp

@[simp] theorem main_loop_st_previous_wheel_middle_left (s : SystemStatuses) (e : MetricsEnv) (now : ℚ) :
    (main_loop s e now).1.previous_wheel_middle_left = (if wheelGate s then s.wheel_msg.middle_left else s.previous_wheel_middle_left) := by
  rw [main_loop, publishPhase_state]
  try simp

@[simp] theorem main_loop_st_previous_wheel_rear_left (s : SystemStatuses) (e : MetricsEnv) (now : ℚ) :
    (main_loop s e now).1.previous_wheel_rear_left = (if wheelGate s then s.wheel_msg.rear_left else s.previous_wheel_rear_left) := by
  rw [main_loop, publishPhase_state]
  try simp

@[simp] theorem main_loop_st_previous_wheel_front_right (s : SystemStatuses) (e : MetricsEnv) (now : ℚ) :
    (main_loop s e now).1.previous_wheel_front_right = (if wheelGate s then s.wheel_msg.front_right else s.previous_wheel_front_right) := by
  rw [main_loop, publishPhase_state]
  try simp

@[simp] theorem main_loop_st_previous_wheel_middle_right (s : SystemStatuses) (e : MetricsEnv) (now : ℚ) :
    (main_loop s e now).1.previous_wheel_middle_right = (if wheelGate s then s.wheel_msg.middle_right else s.previous_wheel_middle_right) := by
  rw [main_loop, publishPhase_state]
  try simp

@[simp] theorem main_loop_st_previous_wheel_rear_right (s : SystemStatuses) (e : MetricsEnv) (now : ℚ) :
    (main_loop s e now).1.previous_wheel_rear_right = (if wheelGate s then s.wheel_msg.rear_right else s.previous_wheel_rear_right) := by
  rw [main_loop, publishPhase_state]
  try simp

@[simp] theorem main_loop_st_previous_gps_connected (s : SystemStatuses) (e : MetricsEnv) (now : ℚ) :
    (main_loop s e now).1.previous_gps_connected = (if gpsGate s then s.GPS_msg.gps_connected else s.previous_gps_connected) := by
  rw [main_loop, publishPhase_state]
  try simp

@[simp] theorem main_loop_st_previous_gps_fix (s : SystemStatuses) (e : MetricsEnv) (now : ℚ) :
    (main_loop s e now).1.previous_gps_fix = (if gpsGate s then s.GPS_msg.gps_fix else s.previous_gps_fix) := by
  rw [main_loop, publishPhase_state]
  try simp

@[simp] theorem main_loop_st_previous_gps_num_satellites (s : SystemStatuses) (e : MetricsEnv) (now : ℚ) :
    (main_loop s e now).1.previous_gps_num_satellites = (if gpsGate s then s.GPS_msg.num_satellites else s.previous_gps_num_satellites) := by
  rw [main_loop, publishPhase_state]
  try simp

@[simp] theorem main_loop_st_previous_gps_horizontal_dilution (s : SystemStatuses) (e : MetricsEnv) (now : ℚ) :
    (main_loop s e now).1.previous_gps_horizontal_dilution = (if gpsGate s then s.GPS_msg.horizontal_dilution else s.previous_gps_horizontal_dilution) := by
  rw [main_loop, publishPhase_state]
  try simp

@[simp] theorem main_loop_st_previous_gps_kmph (s : SystemStatuses) (e : MetricsEnv) (now : ℚ) :
    (main_loop s e now).1.previous_gps_kmph = (if gpsGate s then s.GPS_msg.kmph else s.previous_gps_kmph) := by
  rw [main_loop, publishPhase_state]
  try simp

@[simp] theorem main_loop_st_previous_gps_heading (s : SystemStatuses) (e : MetricsEnv) (now : ℚ) :
    (main_loop s e now).1.previous_gps_heading = (if gpsGate s then s.GPS_msg.gps_heading else s.previous_gps_heading) := by
  rw [main_loop, publishPhase_state]
  try simp

@[simp] theorem main_loop_st_previous_arm_connection_status (s : SystemStatuses) (e : MetricsEnv) (now : ℚ) :
    (main_loop s e now).1.previous_arm_connection_status = (if miscGateE s then false else s.previous_arm_connection_status) := by
  rw [main_loop, publishPhase_state]
  try simp

@[simp] theorem main_loop_st_previous_arm_end_effector_connection_statuses (s : SystemStatuses) (e : MetricsEnv) (now : ℚ) :
    (main_loop s e now).1.previous_arm_end_effector_connection_statuses = (if miscGateE s then false else s.previous_arm_end_effector_connection_statuses) := by
  rw [main_loop, publishPhase_state]
  try simp

@[simp] theorem main_loop_st_previous_chassis_pan_tilt_connection_status (s : SystemStatuses) (e : MetricsEnv) (now : ℚ) :
    (main_loop s e now).1.previous_chassis_pan_tilt_connection_status = (if miscGateE s then false else s.previous_chassis_pan_tilt_connection_status) := by
  rw [main_loop, publishPhase_state]
  try simp

@[simp] theorem main_loop_st_previous_sample_containment_connection_status (s : SystemStatuses) (e : MetricsEnv) (now : ℚ) :
    (main_loop s e now).1.previous_sample_containment_connection_status = (if miscGateE s then false else s.previous_sample_containment_connection_status) := by
  rw [main_loop, publishPhase_state]
  try simp

@[simp] theorem main_loop_st_previous_tower_connection_status (s : SystemStatuses) (e : MetricsEnv) (now : ℚ) :
    (main_loop s e now).1.previous_tower_connection_status = (if miscGateE s then false else s.previous_tower_connection_status) := by
  rw [main_loop, publishPhase_state]
  try simp

@[simp] theorem main_loop_st_manual_update_requested (s : SystemStatuses) (e : MetricsEnv) (now : ℚ) :
    (main_loop s e now).1.manual_update_requested = (false) := by
  rw [main_loop, publishPhase_state]
  try simp

@[simp] theorem main_loop_st_iris_drive_subscription_count (s : SystemStatuses) (e : MetricsEnv) (now : ℚ) :
    (main_loop s e now).1.iris_drive_subscription_count = (s.iris_drive_subscription_count + 1) := by
  rw [main_loop, publishPhase_state]
  try simp

end Rover.Status

namespace Rover.Status

attribute [ext] BatteryStatusMessage CameraStatuses WheelStatuses FrSkyStatus GPSInfo
  JetsonInfo MiscStatuses

/-- C1: for every status category, on a tick with no manual override pending,
the gate's publish decision (the change-detection condition of the category's
publish block) is true iff the current record differs from the last published
snapshot, compared field by field over every observable field; two successive
ticks with an unchanged record and no manual override yield no second publish
of any category; and for the un-throttled categories a difference in any
single field triggers a publish of the whole record and updates the snapshot.
(The rate-ceiling gate of the battery and Jetson categories, which sits on top
of this decision, is claim C2.) -/
theorem C1_change_gate (s : SystemStatuses) (e : MetricsEnv) (now1 now2 : ℚ)
    (h : s.manual_update_requested = false) :
    changeGateClaim s e now1 now2 := by
  unfold changeGateClaim

  refine ⟨by simp [batteryGate, h], by simp [cameraGate, h, or_assoc],
    by simp [jetsonGate, h, or_assoc], by simp [frskyGate, h],
    by simp [wheelGate, h, or_assoc], by simp [gpsGate, or_assoc],
    by simp [miscGate, h, or_assoc], ?_, ?_, ?_, ?_, ?_, ?_, ?_, ?_, ?_, ?_, ?_, ?_⟩
  · intro hb
    simp [batteryPub, batteryGate, h] at hb ⊢
    simp [hb]
  · intro hb
    simp [cameraGateE, h] at hb ⊢
    simp [hb]
  · intro hb
    simp [jetsonPubE, jetsonGateE, h] at hb ⊢
    simp [hb]
  · intro hb
    simp [frskyGate, h] at hb ⊢
    simp [hb]
  · intro hb
    simp [wheelGate, h] at hb ⊢
    simp [hb]
  · intro hb
    simp [gpsGate, h] at hb ⊢
    simp [hb]
  · intro hb
    simp [miscGateE, h] at hb ⊢
    tauto
  · intro hne
    have hc : cameraGateE s e = true := by
      by_contra hcon
      simp [cameraGateE, h] at hcon
      exact hne (by ext <;> simp [hcon])
    refine ⟨by simp [hc], by ext <;> simp [hc]⟩
  · intro hne
    have hw : wheelGate s = true := by
      by_contra hcon
      simp [wheelGate, h] at hcon
      exact hne (by ext <;> simp [hcon])
    refine ⟨by simp [hw], by ext <;> simp [hw]⟩
  · intro hne
    have hg : gpsGate s = true := by
      by_contra hcon
      simp [gpsGate] at hcon
      exact hne (by ext <;> simp [hcon])
    refine ⟨by simp [hg], by ext <;> simp [hg]⟩
  · intro hne
    have hf : frskyGate s = true := by
      by_contra hcon
      simp [frskyGate, h] at hcon
      exact hne (by ext <;> simp [hcon])
    refine ⟨by simp [hf], by ext <;> simp [hf]⟩
  · intro hne
    have hm : miscGateE s = true := by
      by_contra hcon
      simp [miscGateE, h] at hcon
      exact hne (by ext <;> simp [hcon])
    refine ⟨by simp [hm], by ext <;> simp [hm]⟩

/-- C1 witness: the claim instantiated at the zeroed base state. -/
theorem C1_change_gate_witness :
    changeGateClaim baseState baseEnv 0 1 :=
  C1_change_gate baseState baseEnv 0 1 rfl

/-- C2: the battery and Jetson categories (both capped at 0.2 Hz) publish at
most once per 5-second window: a changed value inside the window is suppressed
and dropped rather than queued, the snapshot and timestamp stay untouched so
the next tick re-evaluates the then-current value against the unchanged
snapshot, a still-different value after the window elapses publishes, and a
publish suppresses the category for the following 5 seconds. -/
theorem C2_rate_ceiling (s : SystemStatuses) (e e3 : MetricsEnv) (v : Int)
    (now1 now2 now3 : ℚ)
    (hb : s.battery_message.battery_voltage ≠ s.previous_battery_voltage)
    (h1 : now1 - s.last_iris_message_sent < 5)
    (h2 : now2 - s.last_iris_message_sent > 5)
    (hj : jetsonFromEnv e ≠ jetsonSnapshot s)
    (hj1 : now1 - s.last_jetson_message_sent < 5)
    (hj2 : now2 - s.last_jetson_message_sent > 5)
    (h3 : now3 - now2 ≤ 5) :
    rateCeilingClaim s e e3 v now1 now2 now3 := by
  unfold rateCeilingClaim

  have hrb1 : batteryPub s now1 = false := by
    simp only [batteryPub, Bool.and_eq_false_iff]
    right
    simp
    linarith
  have hrj1 : jetsonPubE s e now1 = false := by
    simp only [jetsonPubE, Bool.and_eq_false_iff]
    right
    simp
    linarith
  have hgb2 : batteryPub (main_loop s e now1).1 now2 = true := by
    simp only [batteryPub, batteryGate]
    simp [hrb1, hb]
    linarith
  have hgj : jetsonGateE (main_loop s e now1).1 e = true := by
    by_contra hcon
    simp [jetsonGateE, hrj1] at hcon
    exact hj (by ext <;> simp [hcon, hrj1])
  have hgj2 : jetsonPubE (main_loop s e now1).1 e now2 = true := by
    simp only [jetsonPubE]
    simp [hgj, hrj1]
    linarith
  refine ⟨rfl, rfl, by norm_num [MAX_IRIS_UPDATE_HERTZ], ?_⟩
  simp [hrb1, hrj1, hgb2, hgj2]
  refine ⟨by ext <;> simp [hrj1], by ext <;> simp [hgj2], ?_, ?_⟩
  · simp only [batteryPub, Bool.and_eq_false_iff]
    right
    simp [iris_status_callback, hgb2]
    linarith
  · simp only [jetsonPubE, Bool.and_eq_false_iff]
    right
    simp [iris_status_callback, hgj2]
    linarith

/-- C2 witness: a changed battery reading (7 vs 0) and a changed Jetson CPU
metric (50 vs 0) presented at times 3, 6 and 8 with both windows opening at 5. -/
theorem C2_rate_ceiling_witness :
    rateCeilingClaim changedBatteryState changedJetsonEnv baseEnv 9 3 6 8 :=
  C2_rate_ceiling changedBatteryState changedJetsonEnv baseEnv 9 3 6 8
    (by simp [changedBatteryState, baseState])
    (by norm_num [changedBatteryState, baseState])
    (by norm_num [changedBatteryState, baseState])
    (by simp [jetsonFromEnv, jetsonSnapshot, changedJetsonEnv, changedBatteryState,
          baseState, JetsonInfo.ext_iff])
    (by norm_num [changedBatteryState, baseState])
    (by norm_num [changedBatteryState, baseState])
    (by norm_num)

theorem C3_manual_refresh_counterexample :
    manualRefreshState.manual_update_requested = true ∧
    (main_loop manualRefreshState baseEnv 10).2.gps = none ∧
    (main_loop manualRefreshState baseEnv 10).2.battery.isSome = true ∧
    (main_loop manualRefreshState baseEnv 10).2.camera.isSome = true ∧
    (main_loop manualRefreshState baseEnv 10).2.jetson.isSome = true ∧
    (main_loop manualRefreshState baseEnv 10).2.frsky.isSome = true ∧
    (main_loop manualRefreshState baseEnv 10).2.wheel.isSome = true ∧
    (main_loop manualRefreshState baseEnv 10).2.misc.isSome = true ∧
    (main_loop manualRefreshStateInWindow baseEnv 10).2.battery = none := by
  refine ⟨rfl, ?_, ?_, ?_, ?_, ?_, ?_, ?_, ?_⟩
  · simp [gpsGate, manualRefreshState, baseState]
  · simp [batteryPub, batteryGate, manualRefreshState, baseState]
    norm_num
  · simp [cameraGateE, manualRefreshState, baseState]
  · simp [jetsonPubE, jetsonGateE, manualRefreshState, baseState]
    norm_num
  · simp [frskyGate, manualRefreshState, baseState]
  · simp [wheelGate, manualRefreshState, baseState]
  · simp [miscGateE, manualRefreshState, baseState]
  · simp [batteryPub, batteryGate, manualRefreshStateInWindow, baseState]
    norm_num

/-- C3 amended: when the manual-refresh flag is set, the next tick publishes
every ChangeGate category except GPS exactly once regardless of value
equality — battery and Jetson provided their 5-second rate windows have
elapsed — the flag is cleared at the end of that tick, and a subsequent tick
with no underlying value change publishes nothing; the GPS publish block does
not consult the flag and publishes only on a field change. -/
theorem C3_manual_refresh (s : SystemStatuses) (e : MetricsEnv) (now now2 : ℚ)
    (hm : s.manual_update_requested = true)
    (hbw : now - s.last_iris_message_sent > 5)
    (hjw : now - s.last_jetson_message_sent > 5)
    (hgps : s.GPS_msg = gpsSnapshot s) :
    manualRefreshClaim s e now now2 := by
  unfold manualRefreshClaim

  have hbp : batteryPub s now = true := by
    simp [batteryPub, batteryGate, hm]
    linarith
  have hce : cameraGateE s e = true := by simp [cameraGateE, hm]
  have hjp : jetsonPubE s e now = true := by
    simp [jetsonPubE, jetsonGateE, hm]
    linarith
  have hfg : frskyGate s = true := by simp [frskyGate, hm]
  have hwg : wheelGate s = true := by simp [wheelGate, hm]
  have hms : miscGateE s = true := by simp [miscGateE, hm]
  have hgg : gpsGate s = false := by simp [gpsGate, hgps]
  refine ⟨by simp [hbp], by simp [hce], by simp [hjp], by simp [hfg], by simp [hwg],
    by simp [hms], by simp [hgg], by simp, ?_⟩
  have hb2 : batteryPub (main_loop s e now).1 now2 = false := by
    simp only [batteryPub, batteryGate, Bool.and_eq_false_iff]
    left
    simp [hbp]
  have hc2 : cameraGateE (main_loop s e now).1 e = false := by
    simp [cameraGateE]
    split_ifs with hC
    · simp
    · exact absurd (Or.inr hm) hC
  have hj2 : jetsonPubE (main_loop s e now).1 e now2 = false := by
    simp only [jetsonPubE, jetsonGateE, Bool.and_eq_false_iff]
    left
    simp [hjp]
  have hf2 : frskyGate (main_loop s e now).1 = false := by
    simp [frskyGate]
    split_ifs with hC
    · simp
    · exact absurd (Or.inr hm) hC
  have hw2 : wheelGate (main_loop s e now).1 = false := by
    simp [wheelGate]
    split_ifs with hC
    · simp
    · exact absurd (Or.inr hm) hC
  have hm2 : miscGateE (main_loop s e now).1 = false := by
    simp [miscGateE]
    tauto
  have hg2 : gpsGate (main_loop s e now).1 = false := by
    simp [gpsGate, hgg, hgps]
  ext <;> simp [hb2, hc2, hj2, hf2, hw2, hm2, hg2]

/-- C3 witness: the base state with the flag set, ticked at time 10 and 11. -/
theorem C3_manual_refresh_witness :
    manualRefreshClaim manualRefreshState baseEnv 10 11 :=
  C3_manual_refresh manualRefreshState baseEnv 10 11 rfl
    (by norm_num [manualRefreshState, baseState])
    (by norm_num [manualRefreshState, baseState])
    rfl

/-- C9: the per-tick refresh `__pull_new_message_values` is idempotent on the
status records and publishes nothing, but it is not side-effect-free beyond
record mutation: every call runs `create_subscription` on
`/rover_control/command_control/iris_drive` (via
`__set_frsky_controller_connection_status`), so calling it twice does not
leave the node state it would have after one call. -/
theorem C9_refresh_acquires_subscription (s : SystemStatuses) (e : MetricsEnv) :
    (pull_new_message_values s e).iris_drive_subscription_count =
      s.iris_drive_subscription_count + 1 ∧
    pull_new_message_values (pull_new_message_values s e) e ≠
      pull_new_message_values s e ∧
    statusRecords (pull_new_message_values (pull_new_message_values s e) e) =
      statusRecords (pull_new_message_values s e) := by
  refine ⟨rfl, ?_, by simp [statusRecords]⟩
  intro hcon
  have hcount := congrArg SystemStatuses.iris_drive_subscription_count hcon
  simp at hcount

/-- C10: `gps_connected` is monotone — `__set_gps_info` sets it true on every
inbound sentence, parseable or not; no entry point of the node ever resets it;
and a published GPS record is exactly the current GPS record, so once true it
is reported true for the life of the process. -/
theorem C10_gps_connected_monotone (s : SystemStatuses) :
    (∀ data, (set_gps_info s data).GPS_msg.gps_connected = true) ∧
    (∀ op, s.GPS_msg.gps_connected = true →
      (applyStatusOp op s).GPS_msg.gps_connected = true) ∧
    (∀ e now m, (main_loop s e now).2.gps = some m → m = s.GPS_msg) := by
  refine ⟨?_, ?_, ?_⟩
  · intro data
    rcases data with _ | ⟨q, ns, hd⟩ | ⟨spd, tt⟩ | _
    · rfl
    · rfl
    · rcases spd with _ | k <;> rcases tt with _ | t <;> rfl
    · rfl
  · intro op hs
    rcases op with ⟨e, now⟩ | ⟨e⟩ | ⟨data⟩ | ⟨v⟩ | ⟨a, b⟩ | ⟨a, b⟩ | ⟨a, b⟩ | ⟨b⟩ | _
    · simp [applyStatusOp, hs]
    · simp [applyStatusOp, hs]
    · rcases data with _ | ⟨q, ns, hd⟩ | ⟨spd, tt⟩ | _
      · rfl
      · rfl
      · rcases spd with _ | k <;> rcases tt with _ | t <;> rfl
      · rfl
    · simp [applyStatusOp, iris_status_callback, hs]
    · simp [applyStatusOp, left_wheel_callback, hs]
    · simp [applyStatusOp, right_wheel_callback, hs]
    · simp [applyStatusOp, rear_wheel_callback, hs]
    · simp [applyStatusOp, frsky_callback, hs]
    · simp [applyStatusOp, on_update_requested, hs]
  · intro e now m hm
    simp at hm
    by_cases hg : gpsGate s
    · simp [hg] at hm
      exact hm.symm
    · simp [hg] at hm

/-- C10 witness: the monotonicity applied at a state that has already seen a
sentence, plus the unconditional set on a parse failure. -/
theorem C10_gps_connected_witness :
    (applyStatusOp StatusOp.updateRequested gpsSeenState).GPS_msg.gps_connected = true ∧
    (set_gps_info baseState NmeaParse.parseRaised).GPS_msg.gps_connected = true :=
  ⟨(C10_gps_connected_monotone gpsSeenState).2.1 StatusOp.updateRequested rfl,
   (C10_gps_connected_monotone baseState).1 NmeaParse.parseRaised⟩

end Rover.Status

namespace Rover.Iris

/-- C4 counterexample: the 17-register vector of zeros is shorter than the
expected 20 registers, yet the tick raises no error and publishes both a drive
command (the sentinel failsafe) and a status message — there is no explicit
length check, so "every short vector fails closed" is false. -/
theorem C4_short_frame_counterexample :
    (List.replicate 17 (0 : Int)).length < MODBUS_REGISTER_COUNT ∧
    (main_loop irisInitState (some (List.replicate 17 0)) 0).2.drive =
      some { controller_present := false, ignore_drive_control := true,
             linear_x := 0, angular_z := 0 } ∧
    (main_loop irisInitState (some (List.replicate 17 0)) 0).2.status =
      some { iris_connected := true, voltage_24v := 0 } ∧
    (main_loop irisInitState (some (List.replicate 17 0)) 0).2.error_logged = false := by
  refine ⟨by decide, rfl, rfl, rfl⟩

/-- C4 amended: only a register vector too short to reach the mode-switch
index (at most 12 registers — in particular the empty vector, the only short
vector the node can actually hold, since a successful transport read returns
exactly 20 registers) makes the tick fail closed: the first register access
raises, the tick's catch-all logs and swallows the error, no drive command or
status value is published that tick, and the loop neither crashes nor exits. -/
theorem C4_short_frame_fails_closed (s : IrisState) (now : ℚ) (regs : List Int)
    (h : regs.length ≤ 12) :
    shortFrameClaim s now regs := by
  unfold shortFrameClaim
  have hdrive : broadcast_drive_if_current_mode regs =
      Except.error RegisterError.indexOutOfRange := by
    unfold broadcast_drive_if_current_mode
    rw [getRegister_eq_none regs DRIVE_VS_ARM (le_trans h (by norm_num [DRIVE_VS_ARM, SE_SWITCH]))]
    rfl
  have hd2 : broadcast_drive_if_current_mode (read_registers s (some regs) now).registers =
      Except.error RegisterError.indexOutOfRange := hdrive
  unfold main_loop
  simp only [hd2]
  refine ⟨trivial, trivial, trivial, trivial, ?_⟩
  have hlast : (read_registers s (some regs) now).iris_last_seen_time = now := rfl
  simp [hlast, IRIS_LAST_SEEN_TIMEOUT]

/-- C4 witness: the initial empty register vector fails closed. -/
theorem C4_short_frame_witness :
    shortFrameClaim irisInitState 0 [] :=
  C4_short_frame_fails_closed irisInitState 0 [] (by simp)

/-- C5 counterexample: with the DRIVE_VS_ARM register at 500 the drive branch
and the arm branch both fire on the same register snapshot, and at 994 —
strictly between the midpoint 991 and midpoint + deadzone 996, the zone the
claim says is handled by neither branch — the arm branch fires. -/
theorem C5_mode_selection_counterexample :
    (drive_branch_fires [0, 0, 0, 0, 0, 0, 0, 0, 0, 0, 0, 0, 500, 0, 0, 0, 0, 0, 0, 0] = true ∧
     arm_branch_fires [0, 0, 0, 0, 0, 0, 0, 0, 0, 0, 0, 0, 500, 0, 0, 0, 0, 0, 0, 0] = true) ∧
    (SBUS_MID < 994 ∧ (994 : Int) < SBUS_MID + SBUS_DEADZONE ∧
     drive_branch_fires [0, 0, 0, 0, 0, 0, 0, 0, 0, 0, 0, 0, 994, 0, 0, 0, 0, 0, 0, 0] = false ∧
     arm_branch_fires [0, 0, 0, 0, 0, 0, 0, 0, 0, 0, 0, 0, 994, 0, 0, 0, 0, 0, 0, 0] = true) := by
  decide

/-- C5 amended: the drive branch fires iff the DRIVE_VS_ARM register is below
`SBUS_MID` (991); the arm branch fires iff it is above
`SBUS_MIN + SBUS_DEADZONE` (177) — the source compares against SBUS_MIN, not
the midpoint; hence both branches fire for every value in (177, 991), exactly
one branch fires outside that band, and there is no value for which neither
fires. -/
theorem C5_mode_selection (regs : List Int) (v : Int) (h : regs[12]? = some v) :
    modeSelectionClaim regs v := by
  unfold modeSelectionClaim
  have hg : getRegister regs DRIVE_VS_ARM = Except.ok v := getRegister_eq_some regs 12 v h
  unfold drive_branch_fires arm_branch_fires
  rw [hg]
  refine ⟨by simp, by simp, ?_⟩
  by_cases hv : v < SBUS_MID
  · left
    simp [hv]
  · right
    simp only [decide_eq_true_eq]
    norm_num [SBUS_MID] at hv
    norm_num [SBUS_MIN, SBUS_DEADZONE]
    omega

/-- C5 witness: the claim instantiated at a snapshot whose mode switch reads 300. -/
theorem C5_mode_selection_witness :
    modeSelectionClaim [0, 0, 0, 0, 0, 0, 0, 0, 0, 0, 0, 0, 300, 0, 0, 0, 0, 0, 0, 0] 300 :=
  C5_mode_selection [0, 0, 0, 0, 0, 0, 0, 0, 0, 0, 0, 0, 300, 0, 0, 0, 0, 0, 0, 0] 300 rfl

/-- C6: in drive mode, the `(0, 0)` stick pair (regardless of every other
register) maps to `controller_present = false`, `ignore_drive_control = true`
and zero velocities; any other pair maps to `controller_present = true`,
`ignore_drive_control` thresholded on the dedicated SF switch, and
`linear = (left_norm + right_norm)/2`, `angular = (right_norm - left_norm)/2`
with `norm = (raw - SBUS_MID)/SBUS_RANGE`; in particular left raw
`= mid + range = 1811` and right raw `= mid = 991` give linear `1/2` and
angular `-1/2`. -/
theorem C6_drive_mode_command (regs : List Int) (mode l r ign : Int)
    (hm : regs[12]? = some mode) (hl : regs[0]? = some l) (hr : regs[1]? = some r)
    (hi : regs[13]? = some ign) (hd : mode < SBUS_MID) :
    driveCommandClaim regs l r ign := by
  unfold driveCommandClaim
  have hgm : getRegister regs DRIVE_VS_ARM = Except.ok mode := getRegister_eq_some regs 12 mode hm
  have hgl : getRegister regs LEFT_STICK_Y_AXIS = Except.ok l := getRegister_eq_some regs 0 l hl
  have hgr : getRegister regs RIGHT_STICK_Y_AXIS = Except.ok r := getRegister_eq_some regs 1 r hr
  have hgi : getRegister regs IGNORE_CONTROL = Except.ok ign := getRegister_eq_some regs 13 ign hi
  have hbase : broadcast_drive_if_current_mode regs =
      if l = 0 ∧ r = 0 then
        Except.ok (some { controller_present := false, ignore_drive_control := true,
                          linear_x := 0, angular_z := 0 })
      else
        Except.ok (some
          { controller_present := true
            ignore_drive_control := decide (ign > SBUS_MID)
            linear_x := (((l - SBUS_MID : Int) : ℚ) / SBUS_RANGE +
                          ((r - SBUS_MID : Int) : ℚ) / SBUS_RANGE) / 2
            angular_z := (((r - SBUS_MID : Int) : ℚ) / SBUS_RANGE -
                          ((l - SBUS_MID : Int) : ℚ) / SBUS_RANGE) / 2 }) := by
    unfold broadcast_drive_if_current_mode
    rw [hgm]
    simp only [Bind.bind, Except.bind, hgl, hgr, hgi, if_pos hd]
    split_ifs <;> rfl
  refine ⟨?_, ?_, ?_⟩
  · intro hsent
    rw [hbase, if_pos hsent]
  · intro hsent
    rw [hbase, if_neg hsent]
  · intro hle hre
    have hnot : ¬(l = 0 ∧ r = 0) := by
      norm_num [SBUS_MID] at hle
      omega
    rw [hbase, if_neg hnot]
    subst hle hre
    norm_num [SBUS_MID, SBUS_RANGE]

/-- C6 witness: a drive-mode snapshot (mode switch 100) with left stick 1811,
right stick 991 and the ignore switch at 1200. -/
theorem C6_drive_mode_command_witness :
    driveCommandClaim
      [1811, 991, 0, 0, 0, 0, 0, 0, 0, 0, 0, 0, 100, 1200, 0, 0, 0, 0, 0, 0]
      1811 991 1200 :=
  C6_drive_mode_command
    [1811, 991, 0, 0, 0, 0, 0, 0, 0, 0, 0, 0, 100, 1200, 0, 0, 0, 0, 0, 0]
    100 1811 991 1200 rfl rfl rfl rfl (by norm_num [SBUS_MID])

/-- C7: a failed transport read is swallowed inside `read_registers` — it
leaves `iris_last_seen_time` and the stale register vector untouched and only
flips the internal `iris_connected` flag to false — while a successful read
stamps `iris_last_seen_time` with now; but every status record the tick
publishes carries `iris_connected = True` unconditionally (line 182), so the
tracked disconnect flag is never visible to consumers. -/
theorem C7_transport_failure_swallowed (s : IrisState) (now : ℚ) (regs : List Int) :
    (read_registers s none now).iris_last_seen_time = s.iris_last_seen_time ∧
    (read_registers s none now).registers = s.registers ∧
    (read_registers s none now).iris_connected = false ∧
    (read_registers s (some regs) now).iris_last_seen_time = now ∧
    (read_registers s (some regs) now).registers = regs ∧
    (main_loop s none now).1.iris_connected = false ∧
    Option.all (fun m => m.iris_connected) (main_loop s none now).2.status = true := by
  refine ⟨rfl, rfl, rfl, rfl, rfl, ?_, main_loop_status_all_connected s none now⟩
  rw [main_loop_state]
  rfl

/-- C8: the tick exits (calls `destroy_node` and returns so the external
respawn can take over) iff the time since the last successful read exceeds
`IRIS_LAST_SEEN_TIMEOUT = 1` second — a threshold larger than the 0.15-second
transport timeout; the decision depends only on that timeout, on every branch
of the tick including the ones that caught an error, so no other error
condition terminates the process. -/
theorem C8_hard_disconnect_exit (s : IrisState) (rr : Option (List Int)) (now : ℚ) :
    ((main_loop s rr now).2.exited = true ↔
      now - (main_loop s rr now).1.iris_last_seen_time > IRIS_LAST_SEEN_TIMEOUT) ∧
    (main_loop s rr now).2.exited =
      decide (now - (read_registers s rr now).iris_last_seen_time > IRIS_LAST_SEEN_TIMEOUT) ∧
    IRIS_LAST_SEEN_TIMEOUT = 1 ∧ COMMUNICATIONS_TIMEOUT < IRIS_LAST_SEEN_TIMEOUT := by
  refine ⟨?_, main_loop_exited s rr now, rfl, ?_⟩
  · rw [main_loop_exited, main_loop_state]
    simp
  · norm_num [COMMUNICATIONS_TIMEOUT, IRIS_LAST_SEEN_TIMEOUT]

end Rover.Iris
